import Mathlib

/-!
Shallow embedding of the travel-coordination backend's core logic:
the patch-reconciliation engine (`ingestService.ts`), the reconstruction
pipeline with its validate-once-repair-once loop (`reconstructService.ts`),
and the trip-item mapper's fingerprint function (`tripItemMapper.ts`).

Modelling conventions:
* JavaScript numbers (confidences, scores, thresholds) are modelled as
  exact integers in units of 0.01: every constant in the source (0.1, 0.15,
  0.2, 0.25, 0.3, 0.5, 0.65, 0.85, 0.9, 0.95) is a whole number of
  hundredths, as is every sum and cap the engine forms from them, so the
  scaling is exact; none of the comparisons sits on a binary-float rounding
  boundary that would change a verdict at the inputs considered here.
* Nullable strings are `Option String`; JavaScript truthiness of a string
  value (`null`/`undefined`/`""` are falsy) is `jsTruthy`.
* Enum-typed values (`TripItemKind`, `TripItemState`, op types) are the
  runtime strings TypeScript uses for them.
* `createHash("sha256")...digest("hex")` is an external collision-resistant
  hash; it is modelled as an injective encoding (the identity) of its
  preimage, so fingerprint equality coincides with preimage equality.
* The platform IANA timezone database behind `Intl.DateTimeFormat` is
  external; its offset lookup is modelled as the constant 0 (UTC). Only the
  structure (local date + time + zone determine an instant) matters to the
  claims, never a concrete non-zero offset.
* Database rows live in plain lists; each transactional block becomes a
  pure function from the item list to the item list.
-/

/-- Truthiness of a nullable JavaScript string: `null`, `undefined` and `""`
are falsy, every other string is truthy. -/
def jsTruthy : Option String → Bool
  | none => false
  | some s => !s.isEmpty

/-- Model of `Math.min` on hundredth-scaled numbers. -/
def jsMin (a b : Int) : Int := if a ≤ b then a else b

/-- Model of `Math.max` on hundredth-scaled numbers. -/
def jsMax (a b : Int) : Int := if a ≤ b then b else a

/-- Character class of the JavaScript regex word class `\w` = `[A-Za-z0-9_]`. -/
def isWordChar (c : Char) : Bool :=
  c.isAlphanum || c == '_'

/-- Lower-case a string character-wise (ASCII case folding, matching what the
`/i` regex flag and `toLowerCase` do on the ASCII inputs involved). -/
def lowerStr (s : String) : String :=
  String.mk (s.data.map Char.toLower)

/-- Character-level model of JavaScript `String.prototype.trim`: drop
leading and trailing whitespace. -/
def trimStr (s : String) : String :=
  String.mk (((s.data.dropWhile Char.isWhitespace).reverse.dropWhile
    Char.isWhitespace).reverse)

/-- Character-level model of `slice(0, n)` on a string. -/
def takeStr (s : String) (n : Nat) : String :=
  String.mk (s.data.take n)

/-- Boundary test for the character immediately before a match position:
start of string or a non-word character satisfies `\b` (all lexicon patterns
start with a word character). -/
def boundaryOk : Option Char → Bool
  | none => true
  | some c => !isWordChar c

/-- Boundary test for the character immediately after a match: end of string
or a non-word character satisfies `\b` (all lexicon patterns end with a word
character). -/
def headBoundary : List Char → Bool
  | [] => true
  | c :: _ => !isWordChar c

/-- Whether `pat` occurs at the head of `s` with a word boundary right after. -/
def matchHereOk (pat s : List Char) : Bool :=
  pat.isPrefixOf s && headBoundary (s.drop pat.length)

/-- Scan of all positions of `s` for a word-boundary-delimited occurrence of
`pat`; `prev` is the character before the current position. -/
def hasBoundedAux (pat : List Char) (prev : Option Char) (s : List Char) : Bool :=
  (boundaryOk prev && matchHereOk pat s) ||
    match s with
    | [] => false
    | c :: rest => hasBoundedAux pat (some c) rest

/-- Whether `text` contains `pat` delimited by `\b` word boundaries. -/
def containsBoundedWord (text pat : String) : Bool :=
  hasBoundedAux pat.data none text.data

/-- Embeds `explicitDestructivePatterns` from `ingestService.ts`. The regex
alternation `\bcancel(?:led|ed)?\b` is expanded into its three words; the
remaining patterns are literal word sequences. -/
def explicitDestructivePatterns : List String :=
  ["cancel", "cancelled", "canceled", "moved to", "changed to",
   "new reservation", "replaced by", "instead", "rescheduled"]

/-- Embeds `hasExplicitDestructiveLanguage`: some fixed-lexicon pattern
matches the raw text, case-insensitively, at word boundaries. -/
def hasExplicitDestructiveLanguage (text : String) : Bool :=
  explicitDestructivePatterns.any (fun p => containsBoundedWord (lowerStr text) p)

/-- Embeds `hasRelativeDateLanguage`: relative-date vocabulary word list. -/
def relativeDateWords : List String :=
  ["today", "tomorrow", "yesterday", "tonight", "sunday", "monday", "tuesday",
   "wednesday", "thursday", "friday", "saturday"]

/-- Embeds `hasRelativeDateLanguage` from `ingestService.ts`. -/
def hasRelativeDateLanguage (text : String) : Bool :=
  relativeDateWords.any (fun p => containsBoundedWord (lowerStr text) p)

/-- Embeds `normalizeText` from `ingestService.ts`: null becomes `""`,
otherwise trim then lower-case. -/
def normalizeTextIngest (value : Option String) : String :=
  match value with
  | none => ""
  | some v => if v.isEmpty then "" else lowerStr (trimStr v)

/-- Collapse every maximal run of whitespace into a single space, as the
mapper's `replace(/\s+/g, " ")` does. -/
def collapseWsAux (prevWs : Bool) : List Char → List Char
  | [] => []
  | c :: rest =>
      if c.isWhitespace then
        if prevWs then collapseWsAux true rest
        else ' ' :: collapseWsAux true rest
      else c :: collapseWsAux false rest

/-- String-level whitespace collapsing. -/
def collapseWhitespace (s : String) : String :=
  String.mk (collapseWsAux false s.data)

/-- Embeds `normalizeText` from `tripItemMapper.ts`: null becomes `""`,
otherwise trim, collapse internal whitespace runs to single spaces, then
lower-case. -/
def normalizeTextMapper (value : Option String) : String :=
  match value with
  | none => ""
  | some v => if v.isEmpty then "" else lowerStr (collapseWhitespace (trimStr v))

/-- Modelled stand-in for `createHash("sha256").update(raw).digest("hex")`:
the hash is an external collision-resistant function of its preimage, so we
model it as an injective encoding (the identity) of the preimage string. -/
def sha256Hex (s : String) : String := s

/-- Identity-bearing fields both fingerprint functions consume. -/
structure FingerprintInput where
  kind : String
  title : String
  startIso : Option String
  startLocalDate : Option String
  startLocalTime : Option String
  locationText : Option String
deriving Repr, DecidableEq

/-- Embeds `[kind, title, startIso, startLocalDate, startLocalTime,
locationText].join("|")` for already-normalized field strings. -/
def rawSix (k t iso d tm loc : String) : String :=
  k ++ "|" ++ t ++ "|" ++ iso ++ "|" ++ d ++ "|" ++ tm ++ "|" ++ loc

/-- Embeds `buildItemFingerprint` from `tripItemMapper.ts` (the
Reconstruction Pipeline's mapper): its `normalizeText` collapses internal
whitespace. -/
def buildItemFingerprintMapper (i : FingerprintInput) : String :=
  sha256Hex (rawSix i.kind (normalizeTextMapper (some i.title)) (i.startIso.getD "")
    (i.startLocalDate.getD "") (i.startLocalTime.getD "") (normalizeTextMapper i.locationText))

/-- Embeds `buildItemFingerprint` from `ingestService.ts` (the patch
Applier): its `normalizeText` only trims and lower-cases. -/
def buildItemFingerprint (i : FingerprintInput) : String :=
  sha256Hex (rawSix i.kind (normalizeTextIngest (some i.title)) (i.startIso.getD "")
    (i.startLocalDate.getD "") (i.startLocalTime.getD "") (normalizeTextIngest i.locationText))

/-- Audit-trail metadata map on a trip item. Only the keys the engine itself
reads or writes are modelled (`previous` as an association list of field
snapshots, `lastUpdatedByRunId`); other free-form keys play no role in any
claim. -/
structure Metadata where
  previous : List (String × Option String)
  lastUpdatedByRunId : Option String
deriving Repr, DecidableEq

/-- Empty metadata object. -/
def Metadata.empty : Metadata := ⟨[], none⟩

/-- One `TripItem` row (the union of the resolver's comparison snapshot and
the columns the Applier reads and writes). -/
structure TripItem where
  id : String
  tripId : String
  kind : String
  title : String
  startLocalDate : Option String
  startLocalTime : Option String
  endLocalDate : Option String
  endLocalTime : Option String
  timezone : Option String
  startTimezone : Option String
  endTimezone : Option String
  startIso : Option String
  endIso : Option String
  locationText : Option String
  isInferred : Bool
  confidence : Int
  state : String
  source : String
  sourceSnippet : Option String
  fingerprint : String
  metadata : Metadata
deriving Repr, DecidableEq

/-- Wire shape of a `start`/`end` field in a patch op (nullable members). -/
structure DateTimeField where
  localDate : Option String
  localTime : Option String
  timezone : Option String
  iso : Option String
deriving Repr, DecidableEq

/-- Wire shape of `targetHints` in a patch op. -/
structure PatchTargetHints where
  kind : Option String
  localDate : Option String
  localTime : Option String
  titleKeywords : Option (List String)
  locationKeywords : Option (List String)
deriving Repr, DecidableEq

/-- Wire shape of an `updates` payload (every member optional). -/
structure PatchItemUpdate where
  kind : Option String
  title : Option String
  locationText : Option String
  start : Option DateTimeField
  «end» : Option DateTimeField
deriving Repr, DecidableEq

/-- Wire shape of a `replacement` / create payload (`kind` and `title`
required by the schema; `assertCreateData` re-checks them for truthiness). -/
structure PatchCreateItem where
  kind : String
  title : String
  locationText : Option String
  start : Option DateTimeField
  «end» : Option DateTimeField
deriving Repr, DecidableEq

/-- One patch operation as validated by `PatchOpSchema`. -/
structure PatchOp where
  opType : String
  confidence : Int
  reason : String
  targetHints : Option PatchTargetHints
  updates : Option PatchItemUpdate
  replacement : Option PatchCreateItem
deriving Repr, DecidableEq

/-- Embeds `DESTRUCTIVE_CONFIDENCE_THRESHOLD = 0.85` (85 hundredths). -/
def DESTRUCTIVE_CONFIDENCE_THRESHOLD : Int := 85

/-- Embeds `UPDATE_CONFIDENCE_THRESHOLD = 0.65` (65 hundredths). -/
def UPDATE_CONFIDENCE_THRESHOLD : Int := 65

/-- Embeds `AMBIGUOUS_SCORE_GAP = 0.1` (10 hundredths). -/
def AMBIGUOUS_SCORE_GAP : Int := 10

/-- Embeds `CANDIDATE_MIN_SCORE = 0.5` (50 hundredths). -/
def CANDIDATE_MIN_SCORE : Int := 50

/-- Destructive op-type test used by `ensurePatchAllowed`. -/
def isDestructiveOp (opType : String) : Bool :=
  opType == "CANCEL_ITEM" || opType == "DISMISS_ITEM" || opType == "REPLACE_ITEM"

/-- Embeds `ensurePatchAllowed` from `ingestService.ts`: the Patch Policy
Guard. Returns `false` when the operation must be deferred to clarification. -/
def ensurePatchAllowed (op : PatchOp) (rawUpdateText : String)
    (targetState : Option String) : Bool :=
  let explicit := hasExplicitDestructiveLanguage rawUpdateText
  let isDestructive := isDestructiveOp op.opType
  if isDestructive && targetState == some "CONFIRMED" && !explicit then
    false
  else if isDestructive && !explicit &&
      decide (op.confidence < DESTRUCTIVE_CONFIDENCE_THRESHOLD) then
    false
  else if op.opType == "UPDATE_ITEM" &&
      decide (op.confidence < UPDATE_CONFIDENCE_THRESHOLD) && !explicit then
    false
  else
    true

/-- Embeds `toIntentType` from `ingestService.ts`. -/
def toIntentType (opType : String) : String :=
  if opType == "UPDATE_ITEM" then "UPDATE"
  else if opType == "CANCEL_ITEM" || opType == "DISMISS_ITEM" then "CANCEL"
  else if opType == "REPLACE_ITEM" then "REPLACE"
  else "UNKNOWN"

/-- Embeds `buildKeywordSet`: trim + lower-case each keyword, drop empties,
deduplicate keeping first occurrences (a JS `Set` in insertion order). -/
def buildKeywordList (values : Option (List String)) : List String :=
  (((values.getD []).map (fun v => lowerStr (trimStr v))).filter (fun v => !v.isEmpty)).eraseDups

/-- Occurrence of `needle` at some position of `s`. -/
def containsSeq (needle : List Char) (s : List Char) : Bool :=
  needle.isPrefixOf s ||
    match s with
    | [] => false
    | _ :: rest => containsSeq needle rest

/-- Substring containment, the model of JavaScript `String.includes`. -/
def strIncludes (hay needle : String) : Bool :=
  containsSeq needle.data hay.data

/-- Embeds `scoreCandidate` from `ingestService.ts`: accumulate score and
human-readable reasons over the five hint dimensions. -/
def scoreCandidate (item : TripItem) (hints : PatchTargetHints) :
    Int × List String :=
  let score : Int := 0
  let reasons : List String := []
  let (score, reasons) :=
    if jsTruthy hints.kind && hints.kind == some item.kind then
      (score + 30, reasons ++ ["Matches kind"])
    else (score, reasons)
  let (score, reasons) :=
    if jsTruthy hints.localDate && item.startLocalDate == hints.localDate then
      (score + 25, reasons ++ ["Matches date"])
    else (score, reasons)
  let (score, reasons) :=
    if jsTruthy hints.localTime && item.startLocalTime == hints.localTime then
      (score + 15, reasons ++ ["Matches time"])
    else (score, reasons)
  let titleKeywords := buildKeywordList hints.titleKeywords
  let (score, reasons) :=
    if titleKeywords.length != 0 then
      let title := normalizeTextIngest (some item.title)
      let hits := (titleKeywords.filter (fun kw => strIncludes title kw)).length
      if hits != 0 then
        (score + jsMin 20 ((hits : Int) * 10), reasons ++ ["Title matches keywords"])
      else (score, reasons)
    else (score, reasons)
  let locationKeywords := buildKeywordList hints.locationKeywords
  let (score, reasons) :=
    if locationKeywords.length != 0 && jsTruthy item.locationText then
      let location := normalizeTextIngest item.locationText
      let hits := (locationKeywords.filter (fun kw => strIncludes location kw)).length
      if hits != 0 then
        (score + jsMin 20 ((hits : Int) * 10), reasons ++ ["Location matches keywords"])
      else (score, reasons)
    else (score, reasons)
  (score, reasons)

/-- Digit value of an ASCII digit character. -/
def digitVal (c : Char) : Nat := c.toNat - '0'.toNat

/-- Embeds `parseDateParts`: accept exactly `YYYY-MM-DD` shaped strings. -/
def parseDateParts (value : Option String) : Option (Nat × Nat × Nat) :=
  match value with
  | none => none
  | some s =>
      match s.data with
      | [y1, y2, y3, y4, '-', m1, m2, '-', d1, d2] =>
          if y1.isDigit && y2.isDigit && y3.isDigit && y4.isDigit &&
              m1.isDigit && m2.isDigit && d1.isDigit && d2.isDigit then
            some (digitVal y1 * 1000 + digitVal y2 * 100 + digitVal y3 * 10 + digitVal y4,
                  digitVal m1 * 10 + digitVal m2,
                  digitVal d1 * 10 + digitVal d2)
          else none
      | _ => none

/-- Embeds `parseTimeParts`: accept exactly `HH:MM` shaped strings. -/
def parseTimeParts (value : Option String) : Option (Nat × Nat) :=
  match value with
  | none => none
  | some s =>
      match s.data with
      | [h1, h2, ':', n1, n2] =>
          if h1.isDigit && h2.isDigit && n1.isDigit && n2.isDigit then
            some (digitVal h1 * 10 + digitVal h2, digitVal n1 * 10 + digitVal n2)
          else none
      | _ => none

/-- Days since the civil epoch 1970-01-01 for a proleptic-Gregorian date
with year ≥ 1 (the standard days-from-civil computation; the model of what
`Date.UTC(y, m-1, d)` divides out to in whole days). -/
def daysFromCivil (y m d : Nat) : Int :=
  let yAdj : Int := if m ≤ 2 then (y : Int) - 1 else (y : Int)
  let era : Int := yAdj / 400
  let yoe : Int := yAdj - era * 400
  let mp : Int := ((m : Int) + 9) % 12
  let doy : Int := (153 * mp + 2) / 5 + (d : Int) - 1
  let doe : Int := yoe * 365 + yoe / 4 - yoe / 100 + doy
  era * 146097 + doe - 719468

/-- Number of days in a month of a given year (Gregorian). -/
def daysInMonth (y m : Nat) : Nat :=
  if m == 2 then
    if y % 4 == 0 && (y % 100 != 0 || y % 400 == 0) then 29 else 28
  else if m == 4 || m == 6 || m == 9 || m == 11 then 30
  else 31

/-- Model of `new Date(s).getTime()` for ISO `YYYY-MM-DD` strings: a valid
calendar date maps to its UTC-midnight day number, anything else to `none`
(an Invalid Date, whose arithmetic comparisons are all false). -/
def parseCivilDay (s : String) : Option Int :=
  match parseDateParts (some s) with
  | none => none
  | some (y, m, d) =>
      if 1 ≤ m && m ≤ 12 && 1 ≤ d && d ≤ daysInMonth y m then
        some (daysFromCivil y m d)
      else none

/-- Day-difference test used by the ±1-day fuzzy date filter. -/
def dayDiffIsOne (base itemDate : String) : Bool :=
  match parseCivilDay base, parseCivilDay itemDate with
  | some b, some it => (it - b).natAbs == 1
  | _, _ => false

/-- Embeds `shouldAllowKindFallback` from `ingestService.ts`. -/
def shouldAllowKindFallback (hints : PatchTargetHints) (item : TripItem)
    (hasStrongTextMatch dateMatches : Bool) : Bool :=
  if !jsTruthy hints.kind then true
  else if hints.kind == some item.kind then true
  else
    let mealActivity :=
      (hints.kind == some "MEAL" && item.kind == "ACTIVITY") ||
      (hints.kind == some "ACTIVITY" && item.kind == "MEAL")
    mealActivity && hasStrongTextMatch && dateMatches

/-- Embeds `filterCandidates` from `ingestService.ts`: the date filter
(exact, or ±1 day under relative-date vocabulary) then the kind filter with
the MEAL↔ACTIVITY fallback. -/
def filterCandidates (items : List TripItem) (hints : PatchTargetHints)
    (rawUpdateText : String) : List TripItem :=
  let allowDateFuzz := hasRelativeDateLanguage rawUpdateText
  let candidates := items
  let candidates :=
    if jsTruthy hints.localDate then
      candidates.filter (fun item =>
        if !jsTruthy item.startLocalDate then false
        else if item.startLocalDate == hints.localDate then true
        else if !allowDateFuzz then false
        else dayDiffIsOne (hints.localDate.getD "") (item.startLocalDate.getD ""))
    else candidates
  let candidates :=
    if jsTruthy hints.kind then
      candidates.filter (fun item =>
        let dateMatches :=
          !jsTruthy hints.localDate || item.startLocalDate == hints.localDate
        let titleKeywords := buildKeywordList hints.titleKeywords
        let locationKeywords := buildKeywordList hints.locationKeywords
        let titleMatch :=
          match titleKeywords.head? with
          | some kw0 => strIncludes (normalizeTextIngest (some item.title)) kw0
          | none => false
        let locationMatch :=
          match locationKeywords.head? with
          | some kw0 => strIncludes (normalizeTextIngest item.locationText) kw0
          | none => false
        let strongTextMatch := titleMatch || locationMatch
        shouldAllowKindFallback hints item strongTextMatch dateMatches)
    else candidates
  candidates

/-- One entry of the scored candidate list. -/
structure ScoredEntry where
  item : TripItem
  score : Int
  reasons : List String
deriving Repr, DecidableEq

/-- Candidate rows persisted into a pending action. -/
structure PendingActionCandidate where
  itemId : String
  kind : String
  title : String
  localDate : Option String
  localTime : Option String
  locationText : Option String
  state : String
  reason : String
deriving Repr, DecidableEq

/-- Display row for one scored entry, mirroring the `.map` in
`resolveCandidates`. -/
def toPendingCandidate (entry : ScoredEntry) : PendingActionCandidate :=
  { itemId := entry.item.id
    kind := entry.item.kind
    title := entry.item.title
    localDate := entry.item.startLocalDate
    localTime := entry.item.startLocalTime
    locationText := entry.item.locationText
    state := entry.item.state
    reason :=
      if entry.reasons.isEmpty then "Matches update hints"
      else String.intercalate ", " entry.reasons }

/-- Descending-by-score order used to model the JS
`sort((a, b) => b.score - a.score)`. -/
def scoreGe (a b : ScoredEntry) : Prop := b.score ≤ a.score

instance : DecidableRel scoreGe := fun a b => inferInstanceAs (Decidable (b.score ≤ a.score))

instance : IsTotal ScoredEntry scoreGe := ⟨fun a b => le_total b.score a.score⟩

instance : IsTrans ScoredEntry scoreGe := ⟨fun _ _ _ h1 h2 => le_trans h2 h1⟩

/-- Filtered, scored and min-score-thresholded candidate entries (the value
of `scored` in `resolveCandidates` before sorting). -/
def scoredEntries (items : List TripItem) (hints : PatchTargetHints)
    (rawUpdateText : String) : List ScoredEntry :=
  ((filterCandidates items hints rawUpdateText).map (fun item =>
      let sr := scoreCandidate item hints
      ScoredEntry.mk item sr.1 sr.2)).filter
    (fun entry => decide (CANDIDATE_MIN_SCORE ≤ entry.score))

/-- Scored entries sorted descending by score (stable, like the V8 sort). -/
def sortedScored (items : List TripItem) (hints : PatchTargetHints)
    (rawUpdateText : String) : List ScoredEntry :=
  List.insertionSort scoreGe (scoredEntries items hints rawUpdateText)

/-- Embeds `resolveCandidates` from `ingestService.ts`: returns the ranked
display candidates (at most 5) and, unless ambiguous, the auto-resolved
target id. -/
def resolveCandidates (items : List TripItem) (hints : Option PatchTargetHints)
    (rawUpdateText : String) : List PendingActionCandidate × Option String :=
  match hints with
  | none => ([], none)
  | some hints =>
      let filtered := filterCandidates items hints rawUpdateText
      if filtered.isEmpty then ([], none)
      else
        match sortedScored items hints rawUpdateText with
        | [] => ([], none)
        | top :: rest =>
            let ambiguous :=
              match rest with
              | [] => false
              | second :: _ => decide (top.score - second.score ≤ AMBIGUOUS_SCORE_GAP)
            let candidates := ((top :: rest).take 5).map toPendingCandidate
            (candidates, if ambiguous then none else some top.item.id)

/-- Modelled stand-in for `getTimeZoneOffsetMinutes` (`Intl.DateTimeFormat`
over the platform IANA database): the offset of every zone is taken as 0
(UTC). No claim depends on a concrete non-zero offset, only on the
date+time+zone => instant structure. -/
def getTimeZoneOffsetMinutes (_timeZone : String) (_utcMs : Int) : Int := 0

/-- Modelled stand-in for `Date.prototype.toISOString`: an injective
rendering of the epoch-milliseconds instant. -/
def dateToIso (ms : Int) : String := toString ms ++ "Z"

/-- Embeds `toIsoFromLocal` (identical in `ingestService.ts` and
`tripItemMapper.ts`): local date `YYYY-MM-DD` + local time `HH:MM` + truthy
zone give an absolute instant, anything else gives null. -/
def toIsoFromLocal (localDate localTime timezone : Option String) : Option String :=
  match parseDateParts localDate, parseTimeParts localTime with
  | some (y, m, d), some (hh, mm) =>
      if jsTruthy timezone then
        let utcMs : Int := daysFromCivil y m d * 86400000 + hh * 3600000 + mm * 60000
        let offsetMinutes := getTimeZoneOffsetMinutes (timezone.getD "") utcMs
        some (dateToIso (utcMs - offsetMinutes * 60000))
      else none
  | _, _ => none

/-- Return shape of `buildUpdateFields`: the merged column values plus the
two optional trust-flag updates (`none` when the flag is left unchanged,
mirroring the conditional spread of `updateFlags`). -/
structure UpdateFields where
  title : String
  kind : String
  locationText : Option String
  startLocalDate : Option String
  startLocalTime : Option String
  endLocalDate : Option String
  endLocalTime : Option String
  startTimezone : Option String
  endTimezone : Option String
  timezone : Option String
  startIso : Option String
  endIso : Option String
  fingerprint : String
  isInferred : Option Bool
  confidence : Option Int
deriving Repr, DecidableEq

/-- Embeds `buildUpdateFields` from `ingestService.ts`: merge supplied
fields over the target's current fields (`??` keeps the existing value),
recompute instant and fingerprint, and auto-promote the trust flags when
start date+time become fully known. -/
def buildUpdateFields (item : TripItem) (updates : PatchItemUpdate) : UpdateFields :=
  let nextStartLocalDate := (updates.start.bind (fun s => s.localDate)) <|> item.startLocalDate
  let nextStartLocalTime := (updates.start.bind (fun s => s.localTime)) <|> item.startLocalTime
  let nextStartTimezone :=
    (updates.start.bind (fun s => s.timezone)) <|> item.startTimezone <|> item.timezone
  let nextEndLocalDate := (updates.«end».bind (fun e => e.localDate)) <|> item.endLocalDate
  let nextEndLocalTime := (updates.«end».bind (fun e => e.localTime)) <|> item.endLocalTime
  let nextEndTimezone :=
    (updates.«end».bind (fun e => e.timezone)) <|> item.endTimezone <|> item.timezone
  let nextTimezone := nextStartTimezone <|> nextEndTimezone <|> item.timezone
  let startIso := toIsoFromLocal nextStartLocalDate nextStartLocalTime nextStartTimezone
  let endIso := toIsoFromLocal nextEndLocalDate nextEndLocalTime nextEndTimezone
  let nextTitle := updates.title.getD item.title
  let nextLocation := updates.locationText <|> item.locationText
  let fingerprint := buildItemFingerprint
    { kind := updates.kind.getD item.kind
      title := nextTitle
      startIso := startIso
      startLocalDate := nextStartLocalDate
      startLocalTime := nextStartLocalTime
      locationText := nextLocation }
  let wasMissingDateOrTime := !jsTruthy item.startLocalDate || !jsTruthy item.startLocalTime
  let nowHasDateAndTime := jsTruthy nextStartLocalDate && jsTruthy nextStartLocalTime
  let flagInferred : Option Bool :=
    if wasMissingDateOrTime && nowHasDateAndTime then some false else none
  let flagConfidence : Option Int :=
    if wasMissingDateOrTime && nowHasDateAndTime then some (jsMax 90 item.confidence)
    else none
  { title := nextTitle
    kind := updates.kind.getD item.kind
    locationText := nextLocation
    startLocalDate := nextStartLocalDate
    startLocalTime := nextStartLocalTime
    endLocalDate := nextEndLocalDate
    endLocalTime := nextEndLocalTime
    startTimezone := nextStartTimezone
    endTimezone := nextEndTimezone
    timezone := nextTimezone
    startIso := startIso
    endIso := endIso
    fingerprint := fingerprint
    isInferred := flagInferred
    confidence := flagConfidence }

/-- Return shape of `buildCreateFields`. -/
structure CreateFields where
  kind : String
  title : String
  startIso : Option String
  endIso : Option String
  timezone : Option String
  startTimezone : Option String
  endTimezone : Option String
  startLocalDate : Option String
  startLocalTime : Option String
  endLocalDate : Option String
  endLocalTime : Option String
  locationText : Option String
  fingerprint : String
  isInferred : Bool
  confidence : Int
deriving Repr, DecidableEq

/-- Embeds `buildCreateFields` from `ingestService.ts`: column values for a
created item; `isInferred = false` and `confidence = 0.95` are hard-coded. -/
def buildCreateFields (create : PatchCreateItem) : CreateFields :=
  let startTimezone := create.start.bind (fun s => s.timezone)
  let endTimezone := create.«end».bind (fun e => e.timezone)
  let timezone := startTimezone <|> endTimezone
  let startLocalDate := create.start.bind (fun s => s.localDate)
  let startLocalTime := create.start.bind (fun s => s.localTime)
  let endLocalDate := create.«end».bind (fun e => e.localDate)
  let endLocalTime := create.«end».bind (fun e => e.localTime)
  let startIso := toIsoFromLocal startLocalDate startLocalTime (startTimezone <|> timezone)
  let endIso := toIsoFromLocal endLocalDate endLocalTime (endTimezone <|> timezone)
  let fingerprint := buildItemFingerprint
    { kind := create.kind
      title := create.title
      startIso := startIso
      startLocalDate := startLocalDate
      startLocalTime := startLocalTime
      locationText := create.locationText }
  { kind := create.kind
    title := create.title
    startIso := startIso
    endIso := endIso
    timezone := timezone
    startTimezone := startTimezone
    endTimezone := endTimezone
    startLocalDate := startLocalDate
    startLocalTime := startLocalTime
    endLocalDate := endLocalDate
    endLocalTime := endLocalTime
    locationText := create.locationText
    fingerprint := fingerprint
    isInferred := false
    confidence := 95 }

/-- Key-override merge of two `previous` association maps, the lookup
semantics of the JS object spread in `mergeMetadata`. -/
def overridePrev (oldPrev newPrev : List (String × Option String)) :
    List (String × Option String) :=
  oldPrev.filter (fun p => !(newPrev.any (fun q => q.1 == p.1))) ++ newPrev

/-- Embeds `mergeMetadata` from `ingestService.ts`: extend the `previous`
snapshot map only when the supplied snapshot is non-empty, then stamp
`lastUpdatedByRunId`. -/
def mergeMetadata (existing : Metadata) (patchRunId : String)
    (previous : List (String × Option String)) : Metadata :=
  let base :=
    if previous.isEmpty then existing
    else { existing with previous := overridePrev existing.previous previous }
  { base with lastUpdatedByRunId := some patchRunId }

/-- Embeds the `previous` snapshot construction inlined in `applyPatchOps`
(and duplicated in `resolvePendingAction`): only for a CONFIRMED target, and
only for the field groups the update supplies. -/
def buildPrevious (target : TripItem) (updates : PatchItemUpdate) :
    List (String × Option String) :=
  if target.state == "CONFIRMED" then
    (if jsTruthy updates.title then [("title", some target.title)] else []) ++
    (if jsTruthy updates.locationText then [("locationText", target.locationText)] else []) ++
    (if updates.start.isSome then
      [("startLocalDate", target.startLocalDate),
       ("startLocalTime", target.startLocalTime),
       ("startTimezone", target.startTimezone <|> target.timezone)]
     else []) ++
    (if updates.«end».isSome then
      [("endLocalDate", target.endLocalDate),
       ("endLocalTime", target.endLocalTime),
       ("endTimezone", target.endTimezone <|> target.timezone)]
     else [])
  else []

/-- Applies an UPDATE_ITEM to its target row: spread of `buildUpdateFields`
over the row plus the audit-metadata merge, as in the transaction body. -/
def applyUpdateItem (target : TripItem) (u : PatchItemUpdate)
    (patchRunId : String) : TripItem :=
  let f := buildUpdateFields target u
  { target with
      title := f.title
      kind := f.kind
      locationText := f.locationText
      startLocalDate := f.startLocalDate
      startLocalTime := f.startLocalTime
      endLocalDate := f.endLocalDate
      endLocalTime := f.endLocalTime
      startTimezone := f.startTimezone
      endTimezone := f.endTimezone
      timezone := f.timezone
      startIso := f.startIso
      endIso := f.endIso
      fingerprint := f.fingerprint
      isInferred := f.isInferred.getD target.isInferred
      confidence := f.confidence.getD target.confidence
      metadata := mergeMetadata target.metadata patchRunId (buildPrevious target u) }

/-- Rewrites an existing row in place for a CREATE_ITEM whose fingerprint
already exists: spread of `buildCreateFields` plus the forced
`state = PROPOSED`, `source = USER` and audit stamps. -/
def applyCreateOnExisting (existing : TripItem) (f : CreateFields)
    (rawUpdateText patchRunId : String) : TripItem :=
  { existing with
      kind := f.kind
      title := f.title
      startIso := f.startIso
      endIso := f.endIso
      timezone := f.timezone
      startTimezone := f.startTimezone
      endTimezone := f.endTimezone
      startLocalDate := f.startLocalDate
      startLocalTime := f.startLocalTime
      endLocalDate := f.endLocalDate
      endLocalTime := f.endLocalTime
      locationText := f.locationText
      fingerprint := f.fingerprint
      isInferred := f.isInferred
      confidence := f.confidence
      state := "PROPOSED"
      source := "USER"
      sourceSnippet := some (takeStr rawUpdateText 180)
      metadata := mergeMetadata existing.metadata patchRunId [] }

/-- Fresh row inserted for a CREATE_ITEM (or REPLACE_ITEM replacement) with
no fingerprint match. -/
def newItemFromCreate (tripId newId : String) (f : CreateFields)
    (rawUpdateText patchRunId : String) : TripItem :=
  { id := newId
    tripId := tripId
    kind := f.kind
    title := f.title
    startLocalDate := f.startLocalDate
    startLocalTime := f.startLocalTime
    endLocalDate := f.endLocalDate
    endLocalTime := f.endLocalTime
    timezone := f.timezone
    startTimezone := f.startTimezone
    endTimezone := f.endTimezone
    startIso := f.startIso
    endIso := f.endIso
    locationText := f.locationText
    isInferred := f.isInferred
    confidence := f.confidence
    state := "PROPOSED"
    source := "USER"
    sourceSnippet := some (takeStr rawUpdateText 180)
    fingerprint := f.fingerprint
    metadata := { previous := [], lastUpdatedByRunId := some patchRunId } }

/-- State change for CANCEL_ITEM / DISMISS_ITEM plus the audit stamp. -/
def setStateWithAudit (it : TripItem) (newState patchRunId : String) : TripItem :=
  { it with
      state := newState
      metadata := mergeMetadata it.metadata patchRunId [] }

/-- Embeds `op.replacement ?? (op.updates as PatchCreateItem)`: the untyped
cast of an updates payload reads its optional kind/title as absent-or-empty. -/
def castUpdateToCreate (u : PatchItemUpdate) : PatchCreateItem :=
  { kind := u.kind.getD ""
    title := u.title.getD ""
    locationText := u.locationText
    start := u.start
    «end» := u.«end» }

/-- Create payload coercion in the CREATE_ITEM branch. -/
def coerceCreateData (op : PatchOp) : Option PatchCreateItem :=
  match op.replacement with
  | some c => some c
  | none => op.updates.map castUpdateToCreate

/-- Embeds `assertCreateData`: kind and title must be present and truthy. -/
def assertCreateData (c : PatchCreateItem) : Bool :=
  !c.kind.isEmpty && !c.title.isEmpty

/-- Failure raised out of the patch flow (an `ApiError`): message and HTTP
status. -/
inductive ApplyErr where
  | apiError (message : String) (status : Nat)
deriving Repr, DecidableEq

/-- One operation after the resolution phase, bound to its target id (none
for CREATE_ITEM). -/
structure ResolvedPatchOp where
  op : PatchOp
  targetId : Option String
deriving Repr, DecidableEq

/-- Resolution-phase outcome: either a deferral into clarification (the
`PendingActionError` path, carrying intent type and candidates) or the
resolved operation list. -/
def resolveOps (items : List TripItem) (rawUpdateText : String) :
    List PatchOp →
    Except ApplyErr (Sum (String × List PendingActionCandidate) (List ResolvedPatchOp))
  | [] => .ok (.inr [])
  | op :: rest =>
      if op.opType == "CREATE_ITEM" then
        match resolveOps items rawUpdateText rest with
        | .error e => .error e
        | .ok (.inl p) => .ok (.inl p)
        | .ok (.inr rs) => .ok (.inr (⟨op, none⟩ :: rs))
      else
        let rc := resolveCandidates items op.targetHints rawUpdateText
        match rc.2 with
        | none => .ok (.inl (toIntentType op.opType, rc.1))
        | some topId =>
            match items.find? (fun item => item.id == topId) with
            | none => .error (.apiError "Target item not found for patch." 404)
            | some target =>
                if ensurePatchAllowed op rawUpdateText (some target.state) then
                  match resolveOps items rawUpdateText rest with
                  | .error e => .error e
                  | .ok (.inl p) => .ok (.inl p)
                  | .ok (.inr rs) => .ok (.inr (⟨op, some topId⟩ :: rs))
                else .ok (.inl (toIntentType op.opType, rc.1))

/-- One step of the transaction body: apply one resolved operation to the
item list, extending the changed-id accumulator; the counter mints ids for
inserted rows (the database id generator). -/
def applyResolvedOp (rawUpdateText patchRunId tripId : String)
    (st : List TripItem × List String × Nat) (r : ResolvedPatchOp) :
    Except ApplyErr (List TripItem × List String × Nat) :=
  let (items, changed, counter) := st
  let op := r.op
  if op.opType == "CREATE_ITEM" then
    match coerceCreateData op with
    | none => .error (.apiError "Create operation missing data." 400)
    | some createData =>
        if !assertCreateData createData then
          .error (.apiError "Create operation requires kind and title." 400)
        else
          let fields := buildCreateFields createData
          match items.find? (fun it =>
              it.tripId == tripId && it.fingerprint == fields.fingerprint) with
          | some existing =>
              .ok (items.map (fun it =>
                    if it.id == existing.id then
                      applyCreateOnExisting it fields rawUpdateText patchRunId
                    else it),
                  changed ++ [existing.id], counter)
          | none =>
              let newId := "created-" ++ toString counter
              .ok (items ++ [newItemFromCreate tripId newId fields rawUpdateText patchRunId],
                  changed ++ [newId], counter + 1)
  else
    match r.targetId with
    | none => .error (.apiError "Resolved patch missing target." 400)
    | some tid =>
        match items.find? (fun it => it.id == tid) with
        | none => .error (.apiError "Target item not found." 404)
        | some target =>
            if op.opType == "UPDATE_ITEM" then
              match op.updates with
              | none => .error (.apiError "Update operation missing data." 400)
              | some u =>
                  .ok (items.map (fun it =>
                        if it.id == target.id then applyUpdateItem it u patchRunId else it),
                      changed ++ [target.id], counter)
            else if op.opType == "CANCEL_ITEM" then
              .ok (items.map (fun it =>
                    if it.id == target.id then setStateWithAudit it "CANCELLED" patchRunId
                    else it),
                  changed ++ [target.id], counter)
            else if op.opType == "DISMISS_ITEM" then
              .ok (items.map (fun it =>
                    if it.id == target.id then setStateWithAudit it "DISMISSED" patchRunId
                    else it),
                  changed ++ [target.id], counter)
            else if op.opType == "REPLACE_ITEM" then
              match op.replacement with
              | none => .error (.apiError "Replace operation missing data." 400)
              | some repl =>
                  if !assertCreateData repl then
                    .error (.apiError "Create operation requires kind and title." 400)
                  else
                    let cancelled := items.map (fun it =>
                      if it.id == target.id then setStateWithAudit it "CANCELLED" patchRunId
                      else it)
                    let fields := buildCreateFields repl
                    let newId := "created-" ++ toString counter
                    .ok (cancelled ++
                          [newItemFromCreate tripId newId fields rawUpdateText patchRunId],
                        changed ++ [target.id, newId], counter + 1)
            else
              .ok (items, changed, counter)

/-- Overall outcome of a patch batch. -/
inductive PatchOutcome where
  | clarify (intentType : String) (candidates : List PendingActionCandidate)
  | applied (items : List TripItem) (changedItemIds : List String)
deriving Repr, DecidableEq

/-- Embeds `applyPatchOps` from `ingestService.ts`: the NEED_CLARIFICATION
pre-pass, the resolution phase (candidate resolution + policy guard, each
block throwing into the pending-action path), then the transactional apply
of the resolved batch. `patchRunId` is the id of the placeholder audit run
row opened at transaction start. -/
def applyPatchOps (tripId : String) (items : List TripItem) (ops : List PatchOp)
    (rawUpdateText patchRunId : String) : Except ApplyErr PatchOutcome :=
  match ops.find? (fun op => op.opType == "NEED_CLARIFICATION") with
  | some op =>
      let rc := resolveCandidates items op.targetHints rawUpdateText
      .ok (.clarify (toIntentType op.opType) rc.1)
  | none =>
      match resolveOps items rawUpdateText ops with
      | .error e => .error e
      | .ok (.inl (intentType, cands)) => .ok (.clarify intentType cands)
      | .ok (.inr resolved) =>
          match resolved.foldlM (applyResolvedOp rawUpdateText patchRunId tripId)
              (items, ([] : List String), 0) with
          | .error e => .error e
          | .ok (items2, changed, _) => .ok (.applied items2 changed)

/-- One item draft produced by `buildTripItemDrafts` for the Reconstruction
Pipeline's persistence step. -/
structure TripItemDraft where
  tripId : String
  fingerprint : String
  kind : String
  title : String
  startIso : Option String
  endIso : Option String
  timezone : Option String
  startTimezone : Option String
  endTimezone : Option String
  startLocalDate : Option String
  startLocalTime : Option String
  endLocalDate : Option String
  endLocalTime : Option String
  locationText : Option String
  isInferred : Bool
  confidence : Int
  sourceSnippet : Option String
  metadata : Option Metadata
deriving Repr, DecidableEq

/-- Embeds `mergeMetadata` from `reconstructService.ts` restricted to the
modelled keys: stamp `lastUpdatedByRunId` over the existing map (the `ai`
details key it also merges is outside every claim). -/
def mergeMetadataRecon (existing : Metadata) (runId : String) : Metadata :=
  { existing with lastUpdatedByRunId := some runId }

/-- One iteration of the `upsertTripItems` loop: look the draft up by
`(tripId, fingerprint)`; update the row in place when found (the update data
does not touch `fingerprint`), insert a fresh `PROPOSED`/`AI` row otherwise.
The counter mints database ids for inserted rows. -/
def upsertStep (runId : String) (st : List TripItem × Nat) (item : TripItemDraft) :
    List TripItem × Nat :=
  let (db, counter) := st
  match db.find? (fun it =>
      it.tripId == item.tripId && it.fingerprint == item.fingerprint) with
  | some existing =>
      (db.map (fun it =>
          if it.id == existing.id then
            { it with
                kind := item.kind
                title := item.title
                startIso := item.startIso
                endIso := item.endIso
                timezone := item.timezone
                startTimezone := item.startTimezone
                endTimezone := item.endTimezone
                startLocalDate := item.startLocalDate
                startLocalTime := item.startLocalTime
                endLocalDate := item.endLocalDate
                endLocalTime := item.endLocalTime
                locationText := item.locationText
                isInferred := item.isInferred
                confidence := item.confidence
                sourceSnippet := item.sourceSnippet
                metadata := mergeMetadataRecon it.metadata runId }
          else it),
       counter)
  | none =>
      (db ++ [{
          id := "item-" ++ toString counter
          tripId := item.tripId
          kind := item.kind
          title := item.title
          startLocalDate := item.startLocalDate
          startLocalTime := item.startLocalTime
          endLocalDate := item.endLocalDate
          endLocalTime := item.endLocalTime
          timezone := item.timezone
          startTimezone := item.startTimezone
          endTimezone := item.endTimezone
          startIso := item.startIso
          endIso := item.endIso
          locationText := item.locationText
          isInferred := item.isInferred
          confidence := item.confidence
          state := "PROPOSED"
          source := "AI"
          sourceSnippet := item.sourceSnippet
          fingerprint := item.fingerprint
          metadata := item.metadata.getD { previous := [], lastUpdatedByRunId := some runId } }],
       counter + 1)

/-- Embeds `upsertTripItems` from `reconstructService.ts`: sequential upsert
of every draft keyed on `(tripId, fingerprint)`. -/
def upsertTripItems (db : List TripItem) (items : List TripItemDraft)
    (runId : String) : List TripItem :=
  (items.foldl (upsertStep runId) (db, 0)).1

/-- Deduplication key of a trip-item row. -/
def itemKey (it : TripItem) : String × String := (it.tripId, it.fingerprint)

/-- Uniqueness of `(tripId, fingerprint)` across a row list (the database
unique constraint backing the upsert). -/
def UniqueKeys (db : List TripItem) : Prop :=
  db.Pairwise (fun a b => itemKey a ≠ itemKey b)

/-- Terminal errors of the Structured-Output Validator. `Issues` is the
type of the structured issue list `z.treeifyError` produces. -/
inductive RunErr (Issues : Type) where
  | invalidModelOutput
  | schemaValidationFailed (issues : Issues)
deriving Repr, DecidableEq

/-- Embeds `runOnceWithRepair` from `reconstructService.ts`. `parse` models
`parseJsonOrThrow` (`none` = the extracted text is not valid JSON),
`validate` models `TripReconstructionSchema.safeParse`, and `oracle n` is the
raw text the n-th oracle invocation returns (the repair prompt's content is
abstracted into the call index). Returns the outcome together with the
number of oracle calls made. -/
def runOnceWithRepair {Parsed Data Issues : Type}
    (parse : String → Option Parsed)
    (validate : Parsed → Except Issues Data)
    (oracle : Nat → String) : Except (RunErr Issues) Data × Nat :=
  let out1 := oracle 0
  match parse out1 with
  | none => (.error .invalidModelOutput, 1)
  | some parsed1 =>
      match validate parsed1 with
      | .ok d => (.ok d, 1)
      | .error _ =>
          let out2 := oracle 1
          match parse out2 with
          | none => (.error .invalidModelOutput, 2)
          | some parsed2 =>
              match validate parsed2 with
              | .ok d => (.ok d, 2)
              | .error issues2 => (.error (.schemaValidationFailed issues2), 2)

/-- Error surfaced by `reconstructService` to its caller: either the
generation error of the oracle/validator work, or a persistence error. -/
inductive ServiceErr (E PE : Type) where
  | generation (e : E)
  | persistence (pe : PE)
deriving Repr, DecidableEq

/-- Embeds the tail of `reconstructService` (`reconstructService.ts`): the
attempt result and the outcome of persisting the run record combine into
what the caller sees. Mirrors, in order: success requires persistence
(persist failure after a successful attempt is thrown), and an attempt
failure is rethrown regardless of persistence failure. -/
def reconstructServiceResult {Parsed Data Issues PE : Type}
    (parse : String → Option Parsed)
    (validate : Parsed → Except Issues Data)
    (oracle : Nat → String)
    (persist : Except PE Unit) : Except (ServiceErr (RunErr Issues) PE) Data :=
  match (runOnceWithRepair parse validate oracle).1, persist with
  | .ok d, .ok _ => .ok d
  | .ok _, .error pe => .error (.persistence pe)
  | .error e, _ => .error (.generation e)

/-- Failures the diagnostics refresh can raise out of `refreshDiagnostics`:
the oracle call itself failing, or its output not parsing as JSON (the
`parseJsonOrThrow` `ApiError`). A schema-validation failure is not here: the
code swallows it and returns null. -/
inductive DiagErr (OErr : Type) where
  | oracleFailed (e : OErr)
  | invalidJson
deriving Repr, DecidableEq

/-- Embeds `refreshDiagnostics` from `ingestService.ts`: no prior non-patch
SUCCESS run gives null; an oracle failure or a JSON-parse failure throws; a
schema-validation failure logs and returns null; otherwise the base record
and the validated diagnostics are returned. -/
def refreshDiagnosticsModel {Base Parsed Diag OErr : Type}
    (latestRun : Option Base)
    (oracleResult : Except OErr String)
    (parse : String → Option Parsed)
    (validate : Parsed → Option Diag) :
    Except (DiagErr OErr) (Option (Base × Diag)) :=
  match latestRun with
  | none => .ok none
  | some base =>
      match oracleResult with
      | .error e => .error (.oracleFailed e)
      | .ok text =>
          match parse text with
          | none => .error .invalidJson
          | some parsed =>
              match validate parsed with
              | none => .ok none
              | some d => .ok (some (base, d))

/-- Final disposition of an ingest call toward its caller. -/
inductive IngestDisposition where
  | applied
  | failed (e : String)
deriving Repr, DecidableEq

/-- Embeds the tail of `applyPatchOps` after the committed transaction: the
diagnostics refresh is awaited with no surrounding try/catch (only
`PendingActionError` is caught upstream in `ingestTripUpdate`), then the
APPLIED result is returned. An error from the refresh therefore becomes the
ingest call's own outcome. -/
def finishPatch {Base Diag OErr : Type}
    (refresh : Except (DiagErr OErr) (Option (Base × Diag))) :
    Except (DiagErr OErr) IngestDisposition :=
  match refresh with
  | .error e => .error e
  | .ok _ => .ok .applied

/-- Row constructor for concrete test fixtures (one trip, AI-sourced, mid
confidence; only the varying columns are parameters). -/
def tItem (id kind title : String) (d t loc : Option String) (state : String) : TripItem :=
  { id := id
    tripId := "trip1"
    kind := kind
    title := title
    startLocalDate := d
    startLocalTime := t
    endLocalDate := none
    endLocalTime := none
    timezone := none
    startTimezone := none
    endTimezone := none
    startIso := none
    endIso := none
    locationText := loc
    isInferred := true
    confidence := 50
    state := state
    source := "AI"
    sourceSnippet := none
    fingerprint := "fp-" ++ id
    metadata := Metadata.empty }

/-- Target hints used by the concrete scenarios: a MEAL on 2026-03-12 at
19:00 with title keyword "sushi". -/
def hintsMeal : PatchTargetHints :=
  { kind := some "MEAL"
    localDate := some "2026-03-12"
    localTime := some "19:00"
    titleKeywords := some ["sushi"]
    locationKeywords := none }

/-- Two candidates scoring 0.70 and 0.65 under `hintsMeal` (gap 0.05). -/
def itemsAmb : List TripItem :=
  [tItem "i1" "MEAL" "Dinner" (some "2026-03-12") (some "19:00") none "PROPOSED",
   tItem "i2" "MEAL" "Sushi place" (some "2026-03-12") none none "PROPOSED"]

/-- Two candidates scoring 0.70 and 0.55 under `hintsMeal` (gap 0.15). -/
def itemsClear : List TripItem :=
  [tItem "i1" "MEAL" "Dinner" (some "2026-03-12") (some "19:00") none "PROPOSED",
   tItem "i2" "MEAL" "Steak" (some "2026-03-12") none none "PROPOSED"]

/-- Single CONFIRMED dinner item, the unique resolution target of
`hintsMeal`. -/
def itemsConf : List TripItem :=
  [tItem "i1" "MEAL" "Dinner" (some "2026-03-12") (some "19:00") none "CONFIRMED"]

/-- CANCEL_ITEM op with confidence 0.95 aimed at the dinner. -/
def opCancel : PatchOp :=
  { opType := "CANCEL_ITEM"
    confidence := 95
    reason := "cancel dinner"
    targetHints := some hintsMeal
    updates := none
    replacement := none }

/-- Create payload whose fingerprint collides with `itemsConfCreate`. -/
def createDinner : PatchCreateItem :=
  { kind := "MEAL"
    title := "Team Dinner"
    locationText := none
    start := none
    «end» := none }

/-- CREATE_ITEM op carrying `createDinner` as replacement payload. -/
def opCreate : PatchOp :=
  { opType := "CREATE_ITEM"
    confidence := 60
    reason := "add dinner"
    targetHints := none
    updates := none
    replacement := some createDinner }

/-- Single CONFIRMED item whose stored fingerprint equals the fingerprint
`buildCreateFields createDinner` computes. -/
def itemsConfCreate : List TripItem :=
  [{ tItem "i1" "MEAL" "Team Dinner" none none none "CONFIRMED" with
      fingerprint := (buildCreateFields createDinner).fingerprint }]

/-- Item that has a start date but no start time (for the trust-flag
promotion scenarios). -/
def itemDateOnly : TripItem :=
  tItem "i1" "MEAL" "Dinner" (some "2026-03-12") none none "PROPOSED"

/-- Update supplying only a start time. -/
def updTimeOnly : PatchItemUpdate :=
  { kind := none
    title := none
    locationText := none
    start := some { localDate := none, localTime := some "19:00", timezone := none, iso := none }
    «end» := none }

/-- Update supplying only a kind change. -/
def updKindOnly : PatchItemUpdate :=
  { kind := some "ACTIVITY"
    title := none
    locationText := none
    start := none
    «end» := none }

/-- CONFIRMED target used by the snapshot scenarios. -/
def targetConf : TripItem :=
  tItem "i9" "MEAL" "Dinner" (some "2026-03-12") (some "19:00") (some "Rossi") "CONFIRMED"

/-- Update supplying a title (for the snapshot scenarios). -/
def updTitle : PatchItemUpdate :=
  { kind := none
    title := some "Late dinner"
    locationText := none
    start := none
    «end» := none }

/-- Fingerprint input whose title contains an internal double space. -/
def fpDoubleSpace : FingerprintInput :=
  { kind := "MEAL"
    title := "Team  Dinner"
    startIso := none
    startLocalDate := none
    startLocalTime := none
    locationText := none }

/-- Draft matching the key of the row `upsertDb` holds. -/
def draftDup : TripItemDraft :=
  { tripId := "trip1"
    fingerprint := "fp-i1"
    kind := "MEAL"
    title := "Team dinner"
    startIso := none
    endIso := none
    timezone := none
    startTimezone := none
    endTimezone := none
    startLocalDate := some "2026-03-12"
    startLocalTime := some "19:00"
    endLocalDate := none
    endLocalTime := none
    locationText := none
    isInferred := false
    confidence := 90
    sourceSnippet := none
    metadata := none }

/-- One-row database for the upsert scenario. -/
def upsertDb : List TripItem :=
  [tItem "i1" "MEAL" "Dinner" (some "2026-03-12") none none "PROPOSED"]

/-- Concrete JSON-extraction model for witnesses: the text "BAD" is
unparseable, everything else parses to itself. -/
def wParse (s : String) : Option String :=
  if s = "BAD" then none else some s

/-- Concrete schema model for witnesses: only "OK" validates; anything else
yields a structured issue list naming the text. -/
def wValidate (p : String) : Except String Nat :=
  if p = "OK" then .ok 1 else .error ("schema:" ++ p)

/-- Oracle whose two responses both parse but fail schema validation. -/
def wOracleBoth (_ : Nat) : String := "meh"

/-- Oracle whose first response is unparseable JSON. -/
def wOracleParse1 (_ : Nat) : String := "BAD"

/-- Oracle whose first response fails schema and whose repair response is
unparseable JSON. -/
def wOracleRepairParseFail (n : Nat) : String := if n = 0 then "meh" else "BAD"

/-- Concrete diagnostics-schema model for witnesses: only "DIAG" validates. -/
def wDiagValidate (p : String) : Option String :=
  if p = "DIAG" then some p else none

/-- C3. For every run of the reconstruction pipeline's validator, at most 2
oracle calls are made; a first-attempt schema failure triggers exactly one
repair call; a second schema failure terminates with SchemaValidationFailed
carrying the repair attempt's structured issue list after exactly 2 calls;
a JSON-parse failure at either attempt raises InvalidModelOutput immediately
with no additional oracle call. -/
theorem repair_ceiling {Parsed Data Issues : Type}
    (parse : String → Option Parsed) (validate : Parsed → Except Issues Data)
    (oracle : Nat → String) :
    (runOnceWithRepair parse validate oracle).2 ≤ 2 ∧
    (∀ p1 issues1, parse (oracle 0) = some p1 → validate p1 = .error issues1 →
      (runOnceWithRepair parse validate oracle).2 = 2) ∧
    (∀ p1 issues1 p2 issues2,
      parse (oracle 0) = some p1 → validate p1 = .error issues1 →
      parse (oracle 1) = some p2 → validate p2 = .error issues2 →
      runOnceWithRepair parse validate oracle =
        (.error (.schemaValidationFailed issues2), 2)) ∧
    (parse (oracle 0) = none →
      runOnceWithRepair parse validate oracle = (.error .invalidModelOutput, 1)) ∧
    (∀ p1 issues1, parse (oracle 0) = some p1 → validate p1 = .error issues1 →
      parse (oracle 1) = none →
      runOnceWithRepair parse validate oracle = (.error .invalidModelOutput, 2)) := by
  unfold runOnceWithRepair
  refine ⟨?_, ?_, ?_, ?_, ?_⟩
  · cases h1 : parse (oracle 0) with
    | none => simp [h1]
    | some p1 =>
        cases h2 : validate p1 with
        | ok d => simp [h1, h2]
        | error i1 =>
            cases h3 : parse (oracle 1) with
            | none => simp [h1, h2, h3]
            | some p2 => cases h4 : validate p2 <;> simp [h1, h2, h3, h4]
  · intro p1 issues1 h1 h2
    cases h3 : parse (oracle 1) with
    | none => simp [h1, h2, h3]
    | some p2 => cases h4 : validate p2 <;> simp [h1, h2, h3, h4]
  · intro p1 issues1 p2 issues2 h1 h2 h3 h4
    simp only [h1, h2, h3, h4]
  · intro h1
    simp only [h1]
  · intro p1 issues1 h1 h2 h3
    simp only [h1, h2, h3]

/-- Witness for C3 at concrete inputs: both oracle attempts schema-invalid
fails terminally with the issue list after exactly 2 calls; a first-attempt
parse failure stops after 1 call; a repair-attempt parse failure stops after
2 calls. -/
theorem repair_ceiling_witness :
    runOnceWithRepair wParse wValidate wOracleBoth =
      (.error (.schemaValidationFailed "schema:meh"), 2) ∧
    runOnceWithRepair wParse wValidate wOracleParse1 =
      (.error .invalidModelOutput, 1) ∧
    runOnceWithRepair wParse wValidate wOracleRepairParseFail =
      (.error .invalidModelOutput, 2) := by
  refine ⟨?_, ?_, ?_⟩
  · exact (repair_ceiling wParse wValidate wOracleBoth).2.2.1 "meh" "schema:meh"
      "meh" "schema:meh" rfl rfl rfl rfl
  · exact (repair_ceiling wParse wValidate wOracleParse1).2.2.2.1 rfl
  · exact (repair_ceiling wParse wValidate wOracleRepairParseFail).2.2.2.2 "meh"
      "schema:meh" rfl rfl rfl

/-- C9. For every reconstruction run: a persistence failure after successful
oracle work surfaces the persistence failure; when the oracle work failed,
the original generation error is thrown regardless of whether persisting the
FAILED record also failed. -/
theorem generation_error_priority {Parsed Data Issues PE : Type}
    (parse : String → Option Parsed) (validate : Parsed → Except Issues Data)
    (oracle : Nat → String) :
    (∀ (d : Data) (pe : PE),
      (runOnceWithRepair parse validate oracle).1 = .ok d →
      reconstructServiceResult parse validate oracle (.error pe) =
        .error (.persistence pe)) ∧
    (∀ (e : RunErr Issues) (persist : Except PE Unit),
      (runOnceWithRepair parse validate oracle).1 = .error e →
      reconstructServiceResult parse validate oracle persist = .error (.generation e)) ∧
    (∀ (d : Data),
      (runOnceWithRepair parse validate oracle).1 = .ok d →
      reconstructServiceResult parse validate oracle (Except.ok () : Except PE Unit) =
        .ok d) := by
  refine ⟨?_, ?_, ?_⟩
  · intro d pe h
    unfold reconstructServiceResult
    simp only [h]
  · intro e persist h
    unfold reconstructServiceResult
    simp only [h]
  · intro d h
    unfold reconstructServiceResult
    simp only [h]

/-- Witness for C9 at concrete inputs: with both attempts schema-invalid the
generation error wins over a failed persistence of the FAILED record, and
with a failed persistence after successful work the persistence error is
surfaced. -/
theorem generation_error_priority_witness :
    reconstructServiceResult wParse wValidate wOracleBoth (.error "db down") =
      .error (.generation (.schemaValidationFailed "schema:meh")) ∧
    reconstructServiceResult wParse (fun _ => (Except.ok 7 : Except String Nat))
        wOracleBoth (.ok ()) = (.ok 7 : Except (ServiceErr (RunErr String) String) Nat) ∧
    reconstructServiceResult wParse (fun _ => (Except.ok 7 : Except String Nat))
        wOracleBoth (.error "db down") =
      .error (.persistence "db down") := by
  refine ⟨?_, ?_, ?_⟩
  · exact (generation_error_priority wParse wValidate wOracleBoth).2.1
      (.schemaValidationFailed "schema:meh") (.error "db down") rfl
  · exact (generation_error_priority wParse
      (fun _ => (Except.ok 7 : Except String Nat)) wOracleBoth).2.2 7 rfl
  · exact (generation_error_priority wParse
      (fun _ => (Except.ok 7 : Except String Nat)) wOracleBoth).1 7 "db down" rfl

/-- Counterexample to C7's statement as written: a successful patch whose
diagnostics refresh output fails JSON parsing does NOT return APPLIED — the
`ApiError` thrown by `parseJsonOrThrow` inside `refreshDiagnostics`
propagates (only `PendingActionError` is caught upstream) and the ingest
call fails. Concretely: with a prior run present and a refresh oracle output
that does not parse, the ingest disposition is the invalid-JSON error. -/
theorem diagnostics_parse_failure_fails_ingest :
    finishPatch (refreshDiagnosticsModel (some "baseRun")
        (Except.ok "BAD" : Except String String) wParse wDiagValidate) =
      .error .invalidJson := rfl

/-- C7 (amended). After a successful patch application, a schema-validation
failure of the diagnostics refresh output (or the absence of a prior
non-patch reconstruction run) is swallowed and the ingest call still returns
APPLIED; but a failure of the refresh oracle call, or a JSON-parse failure
of its output, propagates and becomes a failure of the ingest call itself. -/
theorem diagnostics_refresh_best_effort {Base Parsed Diag OErr : Type}
    (latestRun : Option Base) (oracleResult : Except OErr String)
    (parse : String → Option Parsed) (validate : Parsed → Option Diag) :
    (∀ base text parsed, latestRun = some base → oracleResult = .ok text →
      parse text = some parsed → validate parsed = none →
      finishPatch (refreshDiagnosticsModel latestRun oracleResult parse validate) =
        .ok .applied) ∧
    (latestRun = none →
      finishPatch (refreshDiagnosticsModel latestRun oracleResult parse validate) =
        .ok .applied) ∧
    (∀ base e, latestRun = some base → oracleResult = .error e →
      finishPatch (refreshDiagnosticsModel latestRun oracleResult parse validate) =
        .error (.oracleFailed e)) ∧
    (∀ base text, latestRun = some base → oracleResult = .ok text →
      parse text = none →
      finishPatch (refreshDiagnosticsModel latestRun oracleResult parse validate) =
        .error .invalidJson) := by
  refine ⟨?_, ?_, ?_, ?_⟩
  · intro base text parsed hrun horacle hparse hvalidate
    simp [refreshDiagnosticsModel, finishPatch, hrun, horacle, hparse, hvalidate]
  · intro hrun
    simp [refreshDiagnosticsModel, finishPatch, hrun]
  · intro base e hrun horacle
    simp [refreshDiagnosticsModel, finishPatch, hrun, horacle]
  · intro base text hrun horacle hparse
    simp [refreshDiagnosticsModel, finishPatch, hrun, horacle, hparse]

/-- Witness for C7's amended statement at concrete inputs: a refresh output
that parses but fails the diagnostics schema leaves the ingest APPLIED. -/
theorem diagnostics_refresh_best_effort_witness :
    finishPatch (refreshDiagnosticsModel (some "baseRun")
        (Except.ok "meh" : Except String String) wParse wDiagValidate) =
      .ok .applied :=
  (diagnostics_refresh_best_effort (some "baseRun")
      (Except.ok "meh" : Except String String) wParse wDiagValidate).1
    "baseRun" "meh" "meh" rfl rfl rfl rfl

/-- Counterexample to C5's statement as written: the code promotes the trust
flags whenever the item previously lacked the start date OR the start time
(not only when it lacked both). `itemDateOnly` has a start date and lacks
only the time; the update supplies the time, and the flags are still
changed: `isInferred` is forced to false and confidence raised to 0.9, where
the claim requires both to be left unchanged. -/
theorem trust_flag_promotion_counterexample :
    itemDateOnly.startLocalDate = some "2026-03-12" ∧
    (buildUpdateFields itemDateOnly updTimeOnly).isInferred = some false ∧
    (buildUpdateFields itemDateOnly updTimeOnly).confidence = some 90 := by
  refine ⟨rfl, by decide, by decide⟩

/-- C5 (amended). The trust flags are rewritten exactly when the target
previously lacked its start local date or its start local time (at least one
of the two) and the merged update has both; then `isInferred` becomes false
and confidence becomes `max 0.9 current`. In every other case both flags are
absent from the update payload (left unchanged). -/
theorem trust_flag_promotion (item : TripItem) (u : PatchItemUpdate) :
    (((!jsTruthy item.startLocalDate || !jsTruthy item.startLocalTime) &&
        (jsTruthy (buildUpdateFields item u).startLocalDate &&
          jsTruthy (buildUpdateFields item u).startLocalTime)) = true →
      (buildUpdateFields item u).isInferred = some false ∧
      (buildUpdateFields item u).confidence = some (jsMax 90 item.confidence)) ∧
    (((!jsTruthy item.startLocalDate || !jsTruthy item.startLocalTime) &&
        (jsTruthy (buildUpdateFields item u).startLocalDate &&
          jsTruthy (buildUpdateFields item u).startLocalTime)) = false →
      (buildUpdateFields item u).isInferred = none ∧
      (buildUpdateFields item u).confidence = none) := by
  have hd : (buildUpdateFields item u).startLocalDate =
      ((u.start.bind (fun s => s.localDate)) <|> item.startLocalDate) := rfl
  have ht : (buildUpdateFields item u).startLocalTime =
      ((u.start.bind (fun s => s.localTime)) <|> item.startLocalTime) := rfl
  have hi : (buildUpdateFields item u).isInferred =
      (if (!jsTruthy item.startLocalDate || !jsTruthy item.startLocalTime) &&
          (jsTruthy ((u.start.bind (fun s => s.localDate)) <|> item.startLocalDate) &&
            jsTruthy ((u.start.bind (fun s => s.localTime)) <|> item.startLocalTime))
        then some false else none) := rfl
  have hc : (buildUpdateFields item u).confidence =
      (if (!jsTruthy item.startLocalDate || !jsTruthy item.startLocalTime) &&
          (jsTruthy ((u.start.bind (fun s => s.localDate)) <|> item.startLocalDate) &&
            jsTruthy ((u.start.bind (fun s => s.localTime)) <|> item.startLocalTime))
        then some (jsMax 90 item.confidence) else none) := rfl
  rw [hd, ht, hi, hc]
  cases hcond : ((!jsTruthy item.startLocalDate || !jsTruthy item.startLocalTime) &&
      (jsTruthy ((u.start.bind (fun s => s.localDate)) <|> item.startLocalDate) &&
        jsTruthy ((u.start.bind (fun s => s.localTime)) <|> item.startLocalTime))) <;>
    simp [hcond]

/-- Witness for C5's amended statement at a concrete input: the date-only
item receiving a time gets both flags rewritten. -/
theorem trust_flag_promotion_witness :
    (buildUpdateFields itemDateOnly updTimeOnly).isInferred = some false ∧
    (buildUpdateFields itemDateOnly updTimeOnly).confidence =
      some (jsMax 90 itemDateOnly.confidence) :=
  (trust_flag_promotion itemDateOnly updTimeOnly).1 (by decide)

/-- Association lookup distributes over append, first list winning. -/
theorem lookup_append {β : Type} (l1 l2 : List (String × β)) (k : String) :
    List.lookup k (l1 ++ l2) =
      ((List.lookup k l1).orElse (fun _ => List.lookup k l2)) := by
  induction l1 with
  | nil => simp [List.lookup, Option.orElse]
  | cons e t ih =>
      cases e with
      | mk a b =>
          by_cases hk : (k == a) = true
          · simp [List.lookup, hk, Option.orElse]
          · have hl : List.lookup k ((a, b) :: (t ++ l2)) = List.lookup k (t ++ l2) := by
              simp [List.lookup, hk]
            have hr : List.lookup k ((a, b) :: t) = List.lookup k t := by
              simp [List.lookup, hk]
            rw [List.cons_append, hl, hr, ih]

/-- A successful lookup means some entry carries the key. -/
theorem any_key_of_lookup_isSome {β : Type} (l : List (String × β)) (k : String)
    (h : (List.lookup k l).isSome = true) : (l.any (fun q => q.1 == k)) = true := by
  induction l with
  | nil => simp [List.lookup] at h
  | cons e t ih =>
      cases e with
      | mk a b =>
          by_cases hk : (k == a) = true
          · have hak : (a == k) = true := by
              rw [beq_iff_eq] at hk ⊢
              exact hk.symm
            simp [List.any, hak]
          · rw [List.lookup] at h
            simp only [hk] at h
            simp [List.any, ih h]

/-- Keys present in the overriding map read their overriding value after the
object-spread merge. -/
theorem lookup_overridePrev_of_isSome (oldPrev newPrev : List (String × Option String))
    (k : String) (h : (List.lookup k newPrev).isSome = true) :
    List.lookup k (overridePrev oldPrev newPrev) = List.lookup k newPrev := by
  unfold overridePrev
  rw [lookup_append]
  have hnone : List.lookup k
      (oldPrev.filter (fun p => !(newPrev.any (fun q => q.1 == p.1)))) = none := by
    induction oldPrev with
    | nil => simp [List.lookup]
    | cons e t ih =>
        by_cases hincl : (newPrev.any (fun q => q.1 == e.1)) = true
        · simp [List.filter, hincl, ih]
        · have hk : (k == e.1) = false := by
            by_contra hc
            have hkt : (k == e.1) = true := by
              revert hc
              cases (k == e.1) <;> simp
            rw [beq_iff_eq] at hkt
            have hany := any_key_of_lookup_isSome newPrev k h
            rw [hkt] at hany
            rw [hany] at hincl
            exact hincl rfl
          simp [List.filter, hincl, List.lookup, hk, ih]
  rw [hnone]
  cases List.lookup k newPrev <;> simp [Option.orElse]

/-- Counterexample to C6's statement as written: `kind` is a field the
update overwrites (here MEAL becomes ACTIVITY on a CONFIRMED target), yet
the `previous` snapshot never records a `kind` entry — the snapshot covers
only title, locationText and the start/end groups. -/
theorem confirmed_snapshot_kind_counterexample :
    targetConf.state = "CONFIRMED" ∧
    targetConf.kind = "MEAL" ∧
    (applyUpdateItem targetConf updKindOnly "run1").kind = "ACTIVITY" ∧
    List.lookup "kind" (applyUpdateItem targetConf updKindOnly "run1").metadata.previous =
      none := by
  refine ⟨rfl, rfl, by decide, by decide⟩

/-- C6 (amended). For every UPDATE_ITEM applied to a CONFIRMED target, the
previous values of the supplied field groups are snapshotted into
`metadata.previous` before the overwrite: the title when supplied, the
location when supplied, the start date/time/timezone when a start group is
supplied, the end date/time/timezone when an end group is supplied. A
supplied `kind` overwrites the item's kind without being snapshotted. For
targets in any other state `metadata.previous` is left unchanged. -/
theorem confirmed_update_snapshot (target : TripItem) (u : PatchItemUpdate)
    (runId : String) :
    (target.state = "CONFIRMED" →
      (jsTruthy u.title = true →
        List.lookup "title" (applyUpdateItem target u runId).metadata.previous =
          some (some target.title)) ∧
      (jsTruthy u.locationText = true →
        List.lookup "locationText" (applyUpdateItem target u runId).metadata.previous =
          some target.locationText) ∧
      (u.start.isSome = true →
        List.lookup "startLocalDate" (applyUpdateItem target u runId).metadata.previous =
          some target.startLocalDate ∧
        List.lookup "startLocalTime" (applyUpdateItem target u runId).metadata.previous =
          some target.startLocalTime ∧
        List.lookup "startTimezone" (applyUpdateItem target u runId).metadata.previous =
          some (target.startTimezone <|> target.timezone)) ∧
      (u.«end».isSome = true →
        List.lookup "endLocalDate" (applyUpdateItem target u runId).metadata.previous =
          some target.endLocalDate ∧
        List.lookup "endLocalTime" (applyUpdateItem target u runId).metadata.previous =
          some target.endLocalTime ∧
        List.lookup "endTimezone" (applyUpdateItem target u runId).metadata.previous =
          some (target.endTimezone <|> target.timezone))) ∧
    (target.state ≠ "CONFIRMED" →
      (applyUpdateItem target u runId).metadata.previous = target.metadata.previous) := by
  have hmeta : (applyUpdateItem target u runId).metadata =
      mergeMetadata target.metadata runId (buildPrevious target u) := rfl
  constructor
  · intro hconf
    have hconfb : (target.state == "CONFIRMED") = true := by
      rw [beq_iff_eq]
      exact hconf
    have key_lookup : ∀ (k : String) (v : Option String),
        List.lookup k (buildPrevious target u) = some v →
        List.lookup k (applyUpdateItem target u runId).metadata.previous = some v := by
      intro k v hbp
      have hne : (buildPrevious target u).isEmpty = false := by
        cases hbpl : buildPrevious target u with
        | nil => rw [hbpl] at hbp; simp [List.lookup] at hbp
        | cons a l => simp [List.isEmpty]
      have hprev : (applyUpdateItem target u runId).metadata.previous =
          overridePrev target.metadata.previous (buildPrevious target u) := by
        rw [hmeta]
        simp [mergeMetadata, hne]
      rw [hprev, lookup_overridePrev_of_isSome _ _ _ (by rw [hbp]; rfl), hbp]
    refine ⟨?_, ?_, ?_, ?_⟩
    · intro htitle
      refine key_lookup _ _ ?_
      simp [buildPrevious, hconfb, htitle, List.lookup]
    · intro hloc
      refine key_lookup _ _ ?_
      by_cases h1 : jsTruthy u.title = true <;>
        simp [buildPrevious, hconfb, h1, hloc, List.lookup]
    · intro hstart
      refine ⟨key_lookup _ _ ?_, key_lookup _ _ ?_, key_lookup _ _ ?_⟩ <;>
        (by_cases h1 : jsTruthy u.title = true <;>
          by_cases h2 : jsTruthy u.locationText = true <;>
          simp [buildPrevious, hconfb, h1, h2, hstart, List.lookup])
    · intro hend
      refine ⟨key_lookup _ _ ?_, key_lookup _ _ ?_, key_lookup _ _ ?_⟩ <;>
        (by_cases h1 : jsTruthy u.title = true <;>
          by_cases h2 : jsTruthy u.locationText = true <;>
          by_cases h3 : u.start.isSome = true <;>
          simp [buildPrevious, hconfb, h1, h2, h3, hend, List.lookup])
  · intro hnconf
    have hconfb : (target.state == "CONFIRMED") = false := by
      rw [beq_eq_false_iff_ne]
      exact hnconf
    have hbp : buildPrevious target u = [] := by
      simp [buildPrevious, hconfb]
    rw [hmeta, hbp]
    simp [mergeMetadata]

/-- Witness for C6's amended statement at a concrete input: a CONFIRMED
dinner whose title is updated gets its old title snapshotted. -/
theorem confirmed_update_snapshot_witness :
    List.lookup "title" (applyUpdateItem targetConf updTitle "run1").metadata.previous =
      some (some targetConf.title) :=
  ((confirmed_update_snapshot targetConf updTitle "run1").1 rfl).1 (by decide)

/-- Strings with equal character data are equal. -/
theorem str_ext (a b : String) (h : a.data = b.data) : a = b := by
  cases a
  cases b
  exact congrArg String.mk h

/-- Left cancellation for string append. -/
theorem str_left_cancel (a x y : String) (h : a ++ x = a ++ y) : x = y := by
  have hd := congrArg String.data h
  rw [String.data_append, String.data_append] at hd
  exact str_ext _ _ (List.append_cancel_left hd)

/-- Right cancellation for string append. -/
theorem str_right_cancel (x y b : String) (h : x ++ b = y ++ b) : x = y := by
  have hd := congrArg String.data h
  rw [String.data_append, String.data_append] at hd
  exact str_ext _ _ (List.append_cancel_right hd)

/-- The joined preimage is injective in its first field when the others are
fixed. -/
theorem rawSix_inj_kind (k k' t i d m l : String)
    (h : rawSix k t i d m l = rawSix k' t i d m l) : k = k' := by
  simp only [rawSix] at h
  exact str_right_cancel _ _ _ (str_right_cancel _ _ _ (str_right_cancel _ _ _
    (str_right_cancel _ _ _ (str_right_cancel _ _ _ (str_right_cancel _ _ _
      (str_right_cancel _ _ _ (str_right_cancel _ _ _ (str_right_cancel _ _ _
        (str_right_cancel _ _ _ h)))))))))

/-- The joined preimage is injective in its title field when the others are
fixed. -/
theorem rawSix_inj_title (k t t' i d m l : String)
    (h : rawSix k t i d m l = rawSix k t' i d m l) : t = t' := by
  simp only [rawSix] at h
  exact str_left_cancel _ _ _ (str_right_cancel _ _ _ (str_right_cancel _ _ _
    (str_right_cancel _ _ _ (str_right_cancel _ _ _ (str_right_cancel _ _ _
      (str_right_cancel _ _ _ (str_right_cancel _ _ _ (str_right_cancel _ _ _ h))))))))

/-- The joined preimage is injective in its start-instant field when the
others are fixed. -/
theorem rawSix_inj_iso (k t i i' d m l : String)
    (h : rawSix k t i d m l = rawSix k t i' d m l) : i = i' := by
  simp only [rawSix] at h
  exact str_left_cancel _ _ _ (str_right_cancel _ _ _ (str_right_cancel _ _ _
    (str_right_cancel _ _ _ (str_right_cancel _ _ _ (str_right_cancel _ _ _
      (str_right_cancel _ _ _ h))))))

/-- The joined preimage is injective in its local-date field when the others
are fixed. -/
theorem rawSix_inj_date (k t i d d' m l : String)
    (h : rawSix k t i d m l = rawSix k t i d' m l) : d = d' := by
  simp only [rawSix] at h
  exact str_left_cancel _ _ _ (str_right_cancel _ _ _ (str_right_cancel _ _ _
    (str_right_cancel _ _ _ (str_right_cancel _ _ _ h))))

/-- The joined preimage is injective in its local-time field when the others
are fixed. -/
theorem rawSix_inj_time (k t i d m m' l : String)
    (h : rawSix k t i d m l = rawSix k t i d m' l) : m = m' := by
  simp only [rawSix] at h
  exact str_left_cancel _ _ _ (str_right_cancel _ _ _ (str_right_cancel _ _ _ h))

/-- The joined preimage is injective in its location field when the others
are fixed. -/
theorem rawSix_inj_loc (k t i d m l l' : String)
    (h : rawSix k t i d m l = rawSix k t i d m l') : l = l' := by
  simp only [rawSix] at h
  exact str_left_cancel _ _ _ h

/-- Counterexample to C8's statement as written: on a title containing an
internal double space the mapper's fingerprint (whitespace-collapsing
normalization) and the patch Applier's fingerprint (trim-only normalization)
differ, so the two are not one function. -/
theorem fingerprint_functions_diverge :
    buildItemFingerprintMapper fpDoubleSpace ≠ buildItemFingerprint fpDoubleSpace := by
  decide

/-- Whitespace collapsing never lengthens a character list. -/
theorem collapseWsAux_length (cs : List Char) :
    ∀ b, (collapseWsAux b cs).length ≤ cs.length := by
  induction cs with
  | nil => intro b; simp [collapseWsAux]
  | cons c rest ih =>
      intro b
      unfold collapseWsAux
      by_cases hw : c.isWhitespace = true
      · cases b with
        | true =>
            simp only [hw, if_true, List.length_cons]
            exact le_trans (ih true) (Nat.le_succ _)
        | false =>
            simp only [hw, if_true, Bool.false_eq_true, if_false, List.length_cons]
            exact Nat.succ_le_succ (ih true)
      · have hw2 : c.isWhitespace = false := by
          revert hw
          cases c.isWhitespace <;> simp
        simp only [hw2, Bool.false_eq_true, if_false, List.length_cons]
        exact Nat.succ_le_succ (ih false)

/-- The mapper's normalization (which collapses whitespace runs) never
yields a longer string than the Applier's (which only trims). -/
theorem normalizeTextMapper_length_le (o : Option String) :
    (normalizeTextMapper o).data.length ≤ (normalizeTextIngest o).data.length := by
  cases o with
  | none => simp [normalizeTextMapper, normalizeTextIngest]
  | some v =>
      by_cases hv : v.isEmpty = true
      · simp [normalizeTextMapper, normalizeTextIngest, hv]
      · have hv2 : v.isEmpty = false := by
          revert hv
          cases v.isEmpty <;> simp
        simp only [normalizeTextMapper, normalizeTextIngest, hv2, Bool.false_eq_true,
          if_false]
        show ((collapseWsAux false (trimStr v).data).map Char.toLower).length ≤
          ((trimStr v).data.map Char.toLower).length
        rw [List.length_map, List.length_map]
        exact collapseWsAux_length _ false

/-- Equal mapper and Applier fingerprints force the title and the location
to normalize identically under both rules: the fingerprint preimages share
every other coordinate, the mapper's title/location coordinates are never
longer than the Applier's, so equal total length pins both coordinate
lengths, and a concatenation with known coordinate lengths is coordinate-wise
injective. -/
theorem fingerprint_agree_title_loc (i : FingerprintInput)
    (h : buildItemFingerprintMapper i = buildItemFingerprint i) :
    normalizeTextMapper (some i.title) = normalizeTextIngest (some i.title) ∧
    normalizeTextMapper i.locationText = normalizeTextIngest i.locationText := by
  have hd := congrArg String.data h
  simp only [buildItemFingerprintMapper, buildItemFingerprint, sha256Hex, rawSix,
    String.data_append, List.append_assoc] at hd
  have hd1 := List.append_cancel_left hd
  have hd2 := List.append_cancel_left hd1
  have hT := normalizeTextMapper_length_le (some i.title)
  have hL := normalizeTextMapper_length_le i.locationText
  have hlen := congrArg List.length hd2
  simp only [List.length_append] at hlen
  have hTeq : (normalizeTextMapper (some i.title)).data.length =
      (normalizeTextIngest (some i.title)).data.length := by omega
  obtain ⟨ht, hrest⟩ := List.append_inj hd2 hTeq
  have hr1 := List.append_cancel_left hrest
  have hr2 := List.append_cancel_left hr1
  have hr3 := List.append_cancel_left hr2
  have hr4 := List.append_cancel_left hr3
  have hr5 := List.append_cancel_left hr4
  have hr6 := List.append_cancel_left hr5
  have hr7 := List.append_cancel_left hr6
  exact ⟨str_ext _ _ ht, str_ext _ _ hr7⟩

/-- C8 (amended). Each fingerprint function is a deterministic pure function
of (kind, its own normalized title, coalesced start instant, coalesced start
local date, coalesced start local time, its own normalized location):
identical normalized field values yield the same fingerprint, and — for each
of the two functions — differing any one of those fields (the others fixed)
changes it. The mapper's and the Applier's fingerprints agree exactly on
inputs whose title and location normalize identically under both rules: the
mapper collapses internal whitespace runs while the Applier only trims, so
they differ on every other input. -/
theorem fingerprint_determinism :
    (∀ i : FingerprintInput,
      buildItemFingerprintMapper i = buildItemFingerprint i ↔
        (normalizeTextMapper (some i.title) = normalizeTextIngest (some i.title) ∧
          normalizeTextMapper i.locationText = normalizeTextIngest i.locationText)) ∧
    (∀ i j : FingerprintInput,
      i.kind = j.kind →
      normalizeTextIngest (some i.title) = normalizeTextIngest (some j.title) →
      i.startIso.getD "" = j.startIso.getD "" →
      i.startLocalDate.getD "" = j.startLocalDate.getD "" →
      i.startLocalTime.getD "" = j.startLocalTime.getD "" →
      normalizeTextIngest i.locationText = normalizeTextIngest j.locationText →
      buildItemFingerprint i = buildItemFingerprint j) ∧
    (∀ i j : FingerprintInput,
      i.kind = j.kind →
      normalizeTextMapper (some i.title) = normalizeTextMapper (some j.title) →
      i.startIso.getD "" = j.startIso.getD "" →
      i.startLocalDate.getD "" = j.startLocalDate.getD "" →
      i.startLocalTime.getD "" = j.startLocalTime.getD "" →
      normalizeTextMapper i.locationText = normalizeTextMapper j.locationText →
      buildItemFingerprintMapper i = buildItemFingerprintMapper j) ∧
    (∀ i j : FingerprintInput,
      i.kind ≠ j.kind →
      normalizeTextIngest (some i.title) = normalizeTextIngest (some j.title) →
      i.startIso.getD "" = j.startIso.getD "" →
      i.startLocalDate.getD "" = j.startLocalDate.getD "" →
      i.startLocalTime.getD "" = j.startLocalTime.getD "" →
      normalizeTextIngest i.locationText = normalizeTextIngest j.locationText →
      buildItemFingerprint i ≠ buildItemFingerprint j) ∧
    (∀ i j : FingerprintInput,
      normalizeTextIngest (some i.title) ≠ normalizeTextIngest (some j.title) →
      i.kind = j.kind →
      i.startIso.getD "" = j.startIso.getD "" →
      i.startLocalDate.getD "" = j.startLocalDate.getD "" →
      i.startLocalTime.getD "" = j.startLocalTime.getD "" →
      normalizeTextIngest i.locationText = normalizeTextIngest j.locationText →
      buildItemFingerprint i ≠ buildItemFingerprint j) ∧
    (∀ i j : FingerprintInput,
      i.startIso.getD "" ≠ j.startIso.getD "" →
      i.kind = j.kind →
      normalizeTextIngest (some i.title) = normalizeTextIngest (some j.title) →
      i.startLocalDate.getD "" = j.startLocalDate.getD "" →
      i.startLocalTime.getD "" = j.startLocalTime.getD "" →
      normalizeTextIngest i.locationText = normalizeTextIngest j.locationText →
      buildItemFingerprint i ≠ buildItemFingerprint j) ∧
    (∀ i j : FingerprintInput,
      i.startLocalDate.getD "" ≠ j.startLocalDate.getD "" →
      i.kind = j.kind →
      normalizeTextIngest (some i.title) = normalizeTextIngest (some j.title) →
      i.startIso.getD "" = j.startIso.getD "" →
      i.startLocalTime.getD "" = j.startLocalTime.getD "" →
      normalizeTextIngest i.locationText = normalizeTextIngest j.locationText →
      buildItemFingerprint i ≠ buildItemFingerprint j) ∧
    (∀ i j : FingerprintInput,
      i.startLocalTime.getD "" ≠ j.startLocalTime.getD "" →
      i.kind = j.kind →
      normalizeTextIngest (some i.title) = normalizeTextIngest (some j.title) →
      i.startIso.getD "" = j.startIso.getD "" →
      i.startLocalDate.getD "" = j.startLocalDate.getD "" →
      normalizeTextIngest i.locationText = normalizeTextIngest j.locationText →
      buildItemFingerprint i ≠ buildItemFingerprint j) ∧
    (∀ i j : FingerprintInput,
      normalizeTextIngest i.locationText ≠ normalizeTextIngest j.locationText →
      i.kind = j.kind →
      normalizeTextIngest (some i.title) = normalizeTextIngest (some j.title) →
      i.startIso.getD "" = j.startIso.getD "" →
      i.startLocalDate.getD "" = j.startLocalDate.getD "" →
      i.startLocalTime.getD "" = j.startLocalTime.getD "" →
      buildItemFingerprint i ≠ buildItemFingerprint j) ∧
    (∀ i j : FingerprintInput,
      i.kind ≠ j.kind →
      normalizeTextMapper (some i.title) = normalizeTextMapper (some j.title) →
      i.startIso.getD "" = j.startIso.getD "" →
      i.startLocalDate.getD "" = j.startLocalDate.getD "" →
      i.startLocalTime.getD "" = j.startLocalTime.getD "" →
      normalizeTextMapper i.locationText = normalizeTextMapper j.locationText →
      buildItemFingerprintMapper i ≠ buildItemFingerprintMapper j) ∧
    (∀ i j : FingerprintInput,
      normalizeTextMapper (some i.title) ≠ normalizeTextMapper (some j.title) →
      i.kind = j.kind →
      i.startIso.getD "" = j.startIso.getD "" →
      i.startLocalDate.getD "" = j.startLocalDate.getD "" →
      i.startLocalTime.getD "" = j.startLocalTime.getD "" →
      normalizeTextMapper i.locationText = normalizeTextMapper j.locationText →
      buildItemFingerprintMapper i ≠ buildItemFingerprintMapper j) ∧
    (∀ i j : FingerprintInput,
      i.startIso.getD "" ≠ j.startIso.getD "" →
      i.kind = j.kind →
      normalizeTextMapper (some i.title) = normalizeTextMapper (some j.title) →
      i.startLocalDate.getD "" = j.startLocalDate.getD "" →
      i.startLocalTime.getD "" = j.startLocalTime.getD "" →
      normalizeTextMapper i.locationText = normalizeTextMapper j.locationText →
      buildItemFingerprintMapper i ≠ buildItemFingerprintMapper j) ∧
    (∀ i j : FingerprintInput,
      i.startLocalDate.getD "" ≠ j.startLocalDate.getD "" →
      i.kind = j.kind →
      normalizeTextMapper (some i.title) = normalizeTextMapper (some j.title) →
      i.startIso.getD "" = j.startIso.getD "" →
      i.startLocalTime.getD "" = j.startLocalTime.getD "" →
      normalizeTextMapper i.locationText = normalizeTextMapper j.locationText →
      buildItemFingerprintMapper i ≠ buildItemFingerprintMapper j) ∧
    (∀ i j : FingerprintInput,
      i.startLocalTime.getD "" ≠ j.startLocalTime.getD "" →
      i.kind = j.kind →
      normalizeTextMapper (some i.title) = normalizeTextMapper (some j.title) →
      i.startIso.getD "" = j.startIso.getD "" →
      i.startLocalDate.getD "" = j.startLocalDate.getD "" →
      normalizeTextMapper i.locationText = normalizeTextMapper j.locationText →
      buildItemFingerprintMapper i ≠ buildItemFingerprintMapper j) ∧
    (∀ i j : FingerprintInput,
      normalizeTextMapper i.locationText ≠ normalizeTextMapper j.locationText →
      i.kind = j.kind →
      normalizeTextMapper (some i.title) = normalizeTextMapper (some j.title) →
      i.startIso.getD "" = j.startIso.getD "" →
      i.startLocalDate.getD "" = j.startLocalDate.getD "" →
      i.startLocalTime.getD "" = j.startLocalTime.getD "" →
      buildItemFingerprintMapper i ≠ buildItemFingerprintMapper j) := by
  refine ⟨?_, ?_, ?_, ?_, ?_, ?_, ?_, ?_, ?_, ?_, ?_, ?_, ?_, ?_, ?_⟩
  · intro i
    constructor
    · exact fingerprint_agree_title_loc i
    · intro ⟨hT, hL⟩
      unfold buildItemFingerprintMapper buildItemFingerprint
      rw [hT, hL]
  · intro i j h1 h2 h3 h4 h5 h6
    unfold buildItemFingerprint
    rw [h1, h2, h3, h4, h5, h6]
  · intro i j h1 h2 h3 h4 h5 h6
    unfold buildItemFingerprintMapper
    rw [h1, h2, h3, h4, h5, h6]
  · intro i j hne h2 h3 h4 h5 h6 hfp
    unfold buildItemFingerprint sha256Hex at hfp
    rw [h2, h3, h4, h5, h6] at hfp
    exact hne (rawSix_inj_kind _ _ _ _ _ _ _ hfp)
  · intro i j hne h1 h3 h4 h5 h6 hfp
    unfold buildItemFingerprint sha256Hex at hfp
    rw [h1, h3, h4, h5, h6] at hfp
    exact hne (rawSix_inj_title _ _ _ _ _ _ _ hfp)
  · intro i j hne h1 h2 h4 h5 h6 hfp
    unfold buildItemFingerprint sha256Hex at hfp
    rw [h1, h2, h4, h5, h6] at hfp
    exact hne (rawSix_inj_iso _ _ _ _ _ _ _ hfp)
  · intro i j hne h1 h2 h3 h5 h6 hfp
    unfold buildItemFingerprint sha256Hex at hfp
    rw [h1, h2, h3, h5, h6] at hfp
    exact hne (rawSix_inj_date _ _ _ _ _ _ _ hfp)
  · intro i j hne h1 h2 h3 h4 h6 hfp
    unfold buildItemFingerprint sha256Hex at hfp
    rw [h1, h2, h3, h4, h6] at hfp
    exact hne (rawSix_inj_time _ _ _ _ _ _ _ hfp)
  · intro i j hne h1 h2 h3 h4 h5 hfp
    unfold buildItemFingerprint sha256Hex at hfp
    rw [h1, h2, h3, h4, h5] at hfp
    exact hne (rawSix_inj_loc _ _ _ _ _ _ _ hfp)
  · intro i j hne h2 h3 h4 h5 h6 hfp
    unfold buildItemFingerprintMapper sha256Hex at hfp
    rw [h2, h3, h4, h5, h6] at hfp
    exact hne (rawSix_inj_kind _ _ _ _ _ _ _ hfp)
  · intro i j hne h1 h3 h4 h5 h6 hfp
    unfold buildItemFingerprintMapper sha256Hex at hfp
    rw [h1, h3, h4, h5, h6] at hfp
    exact hne (rawSix_inj_title _ _ _ _ _ _ _ hfp)
  · intro i j hne h1 h2 h4 h5 h6 hfp
    unfold buildItemFingerprintMapper sha256Hex at hfp
    rw [h1, h2, h4, h5, h6] at hfp
    exact hne (rawSix_inj_iso _ _ _ _ _ _ _ hfp)
  · intro i j hne h1 h2 h3 h5 h6 hfp
    unfold buildItemFingerprintMapper sha256Hex at hfp
    rw [h1, h2, h3, h5, h6] at hfp
    exact hne (rawSix_inj_date _ _ _ _ _ _ _ hfp)
  · intro i j hne h1 h2 h3 h4 h6 hfp
    unfold buildItemFingerprintMapper sha256Hex at hfp
    rw [h1, h2, h3, h4, h6] at hfp
    exact hne (rawSix_inj_time _ _ _ _ _ _ _ hfp)
  · intro i j hne h1 h2 h3 h4 h5 hfp
    unfold buildItemFingerprintMapper sha256Hex at hfp
    rw [h1, h2, h3, h4, h5] at hfp
    exact hne (rawSix_inj_loc _ _ _ _ _ _ _ hfp)

/-- Witness for C8's amended statement at concrete inputs: a
whitespace-clean title makes the two fingerprints agree, and differing only
the normalized title changes the Applier's fingerprint and, separately, the
mapper's. -/
theorem fingerprint_determinism_witness :
    buildItemFingerprintMapper ⟨"MEAL", "Team Dinner", none, none, none, none⟩ =
      buildItemFingerprint ⟨"MEAL", "Team Dinner", none, none, none, none⟩ ∧
    buildItemFingerprint ⟨"MEAL", "Apple", none, none, none, none⟩ ≠
      buildItemFingerprint ⟨"MEAL", "Banana", none, none, none, none⟩ ∧
    buildItemFingerprintMapper ⟨"MEAL", "Apple", none, none, none, none⟩ ≠
      buildItemFingerprintMapper ⟨"MEAL", "Banana", none, none, none, none⟩ := by
  refine ⟨?_, ?_, ?_⟩
  · exact (fingerprint_determinism.1
      ⟨"MEAL", "Team Dinner", none, none, none, none⟩).mpr ⟨by decide, by decide⟩
  · exact fingerprint_determinism.2.2.2.2.1
      ⟨"MEAL", "Apple", none, none, none, none⟩
      ⟨"MEAL", "Banana", none, none, none, none⟩
      (by decide) rfl rfl rfl rfl rfl
  · exact fingerprint_determinism.2.2.2.2.2.2.2.2.2.2.1
      ⟨"MEAL", "Apple", none, none, none, none⟩
      ⟨"MEAL", "Banana", none, none, none, none⟩
      (by decide) rfl rfl rfl rfl rfl

/-- Destructive op types are exactly the three cancel/dismiss/replace
strings. -/
theorem destructive_cases (s : String) (h : isDestructiveOp s = true) :
    s = "CANCEL_ITEM" ∨ s = "DISMISS_ITEM" ∨ s = "REPLACE_ITEM" := by
  simp [isDestructiveOp] at h
  tauto

/-- A destructive op type is neither NEED_CLARIFICATION nor CREATE_ITEM nor
UPDATE_ITEM. -/
theorem destructive_ne (s : String) (h : isDestructiveOp s = true) :
    (s == "NEED_CLARIFICATION") = false ∧ (s == "CREATE_ITEM") = false ∧
      (s == "UPDATE_ITEM") = false := by
  rcases destructive_cases s h with h1 | h1 | h1 <;> subst h1 <;>
    exact ⟨by decide, by decide, by decide⟩

/-- C1. A destructive operation (CANCEL_ITEM, DISMISS_ITEM or REPLACE_ITEM)
resolved onto a CONFIRMED target is blocked into clarification whenever the
raw update text contains no destructive-lexicon phrase, regardless of its
confidence; when the text does contain a lexicon phrase the guard allows it,
and a CANCEL_ITEM then applies, cancelling the target. -/
theorem confirmed_item_protection
    (op : PatchOp) (rawUpdateText patchRunId tripId : String)
    (items : List TripItem) (target : TripItem)
    (hdest : isDestructiveOp op.opType = true)
    (hres : (resolveCandidates items op.targetHints rawUpdateText).2 = some target.id)
    (hfind : items.find? (fun it => it.id == target.id) = some target)
    (hstate : target.state = "CONFIRMED") :
    (hasExplicitDestructiveLanguage rawUpdateText = false →
      ensurePatchAllowed op rawUpdateText (some target.state) = false ∧
      applyPatchOps tripId items [op] rawUpdateText patchRunId =
        .ok (.clarify (toIntentType op.opType)
          (resolveCandidates items op.targetHints rawUpdateText).1)) ∧
    (hasExplicitDestructiveLanguage rawUpdateText = true →
      ensurePatchAllowed op rawUpdateText (some target.state) = true ∧
      (op.opType = "CANCEL_ITEM" →
        applyPatchOps tripId items [op] rawUpdateText patchRunId =
          .ok (.applied
            (items.map (fun it =>
              if it.id == target.id then setStateWithAudit it "CANCELLED" patchRunId
              else it))
            [target.id]))) := by
  obtain ⟨hneed, hcreate, hupd⟩ := destructive_ne op.opType hdest
  constructor
  · intro hexp
    have hguard : ensurePatchAllowed op rawUpdateText (some target.state) = false := by
      simp [ensurePatchAllowed, hdest, hexp, hstate]
    refine ⟨hguard, ?_⟩
    simp only [applyPatchOps, List.find?, hneed, resolveOps, hcreate, Bool.false_eq_true,
      if_false, hres, hfind, hguard]
  · intro hexp
    have hguard : ensurePatchAllowed op rawUpdateText (some target.state) = true := by
      simp [ensurePatchAllowed, hdest, hexp, hupd]
    refine ⟨hguard, ?_⟩
    intro hcancel
    have hcancelb : (op.opType == "CANCEL_ITEM") = true := by
      rw [beq_iff_eq]
      exact hcancel
    simp only [applyPatchOps, List.find?, hneed, resolveOps, hcreate, Bool.false_eq_true,
      if_false, hres, hfind, hguard, if_true, List.foldlM, applyResolvedOp, hcancelb,
      hupd]
    simp

/-- Witness for C1 at the spec's concrete scenario: CANCEL_ITEM with
confidence 0.95 against the CONFIRMED dinner is blocked into clarification
under "move the dinner to 7pm" and applies (the item becomes CANCELLED)
under "cancel the dinner reservation". -/
theorem confirmed_item_protection_witness :
    applyPatchOps "trip1" itemsConf [opCancel] "move the dinner to 7pm" "run1" =
      .ok (.clarify (toIntentType opCancel.opType)
        (resolveCandidates itemsConf opCancel.targetHints "move the dinner to 7pm").1) ∧
    applyPatchOps "trip1" itemsConf [opCancel] "cancel the dinner reservation" "run1" =
      .ok (.applied
        (itemsConf.map (fun it =>
          if it.id == (tItem "i1" "MEAL" "Dinner" (some "2026-03-12") (some "19:00")
              none "CONFIRMED").id
          then setStateWithAudit it "CANCELLED" "run1" else it))
        [(tItem "i1" "MEAL" "Dinner" (some "2026-03-12") (some "19:00")
            none "CONFIRMED").id]) := by
  constructor
  · exact ((confirmed_item_protection opCancel "move the dinner to 7pm" "run1" "trip1"
      itemsConf
      (tItem "i1" "MEAL" "Dinner" (some "2026-03-12") (some "19:00") none "CONFIRMED")
      (by decide) (by decide) (by decide) rfl).1 (by decide)).2
  · exact (((confirmed_item_protection opCancel "cancel the dinner reservation" "run1"
      "trip1" itemsConf
      (tItem "i1" "MEAL" "Dinner" (some "2026-03-12") (some "19:00") none "CONFIRMED")
      (by decide) (by decide) (by decide) rfl).2 (by decide)).2 rfl)

/-- C10. A CREATE_ITEM op whose payload's fingerprint matches an existing
item in the trip rewrites that row in place with state forced to PROPOSED,
source USER, isInferred false and confidence 0.95 — with no hypothesis on
the existing item's state or on destructive phrasing in the update text, as
the CREATE path never consults `ensurePatchAllowed`. -/
theorem create_bypasses_guard
    (op : PatchOp) (items : List TripItem) (tripId rawUpdateText patchRunId : String)
    (createData : PatchCreateItem) (existing : TripItem)
    (hop : op.opType = "CREATE_ITEM")
    (hcd : coerceCreateData op = some createData)
    (hassert : assertCreateData createData = true)
    (hfind : items.find? (fun it =>
        it.tripId == tripId &&
          it.fingerprint == (buildCreateFields createData).fingerprint) = some existing) :
    (buildCreateFields createData).isInferred = false ∧
    (buildCreateFields createData).confidence = 95 ∧
    applyPatchOps tripId items [op] rawUpdateText patchRunId =
      .ok (.applied
        (items.map (fun it =>
          if it.id == existing.id then
            applyCreateOnExisting it (buildCreateFields createData) rawUpdateText patchRunId
          else it))
        [existing.id]) ∧
    (applyCreateOnExisting existing (buildCreateFields createData)
        rawUpdateText patchRunId).state = "PROPOSED" ∧
    (applyCreateOnExisting existing (buildCreateFields createData)
        rawUpdateText patchRunId).source = "USER" := by
  have hopb : (op.opType == "CREATE_ITEM") = true := by
    rw [beq_iff_eq]
    exact hop
  have hneed : (op.opType == "NEED_CLARIFICATION") = false := by
    rw [hop]
    decide
  refine ⟨rfl, rfl, ?_, rfl, rfl⟩
  simp only [applyPatchOps, List.find?, hneed, resolveOps, hopb, if_true, List.foldlM,
    applyResolvedOp, hcd, hassert, hfind]
  simp

/-- Witness for C10 at a concrete input: the CONFIRMED "Team Dinner" row is
rewritten to PROPOSED/USER by a CREATE_ITEM whose payload collides on the
fingerprint, with update text free of destructive phrasing. -/
theorem create_bypasses_guard_witness :
    (itemsConfCreate.map (fun it => it.state)) = ["CONFIRMED"] ∧
    hasExplicitDestructiveLanguage "set up team dinner" = false ∧
    applyPatchOps "trip1" itemsConfCreate [opCreate] "set up team dinner" "run1" =
      .ok (.applied
        (itemsConfCreate.map (fun it =>
          if it.id == "i1" then
            applyCreateOnExisting it (buildCreateFields createDinner)
              "set up team dinner" "run1"
          else it))
        ["i1"]) ∧
    ((itemsConfCreate.map (fun it =>
        if it.id == "i1" then
          applyCreateOnExisting it (buildCreateFields createDinner)
            "set up team dinner" "run1"
        else it)).map
      (fun it => (it.state, it.source, it.isInferred, it.confidence))) =
      [("PROPOSED", "USER", false, 95)] := by
  refine ⟨by decide, by decide, ?_, by decide⟩
  exact (create_bypasses_guard opCreate itemsConfCreate "trip1" "set up team dinner"
    "run1" createDinner
    ({ tItem "i1" "MEAL" "Team Dinner" none none none "CONFIRMED" with
        fingerprint := (buildCreateFields createDinner).fingerprint })
    rfl rfl (by decide) (by decide)).2.2.1

/-- Key-preserving rewrites keep the uniqueness invariant. -/
theorem uniqueKeys_map_of_keyPreserving (db : List TripItem) (f : TripItem → TripItem)
    (hf : ∀ it, itemKey (f it) = itemKey it) (hu : UniqueKeys db) :
    UniqueKeys (db.map f) := by
  unfold UniqueKeys at *
  rw [List.pairwise_map]
  exact hu.imp (fun hab => by rw [hf, hf]; exact hab)

/-- An upsert iteration that finds its `(tripId, fingerprint)` key rewrites
the row in place: row count and the key list are unchanged. -/
theorem upsertStep_found (runId : String) (db : List TripItem) (n : Nat)
    (d : TripItemDraft) (e : TripItem)
    (hfind : db.find? (fun it =>
        it.tripId == d.tripId && it.fingerprint == d.fingerprint) = some e) :
    (upsertStep runId (db, n) d).1.length = db.length ∧
    (upsertStep runId (db, n) d).1.map itemKey = db.map itemKey ∧
    (upsertStep runId (db, n) d).2 = n := by
  simp only [upsertStep, hfind]
  refine ⟨by simp, ?_, trivial⟩
  rw [List.map_map]
  apply List.map_congr_left
  intro it _
  by_cases hid : (it.id == e.id) = true <;> simp [hid, itemKey, Function.comp]

/-- An upsert iteration with no key match appends one fresh row carrying the
draft's key. -/
theorem upsertStep_not_found (runId : String) (db : List TripItem) (n : Nat)
    (d : TripItemDraft)
    (hfind : db.find? (fun it =>
        it.tripId == d.tripId && it.fingerprint == d.fingerprint) = none) :
    (upsertStep runId (db, n) d).1.map itemKey =
      db.map itemKey ++ [(d.tripId, d.fingerprint)] := by
  simp only [upsertStep, hfind]
  simp [itemKey]

/-- One upsert iteration preserves the `(tripId, fingerprint)` uniqueness
invariant. -/
theorem upsertStep_unique (runId : String) (db : List TripItem) (n : Nat)
    (d : TripItemDraft) (hu : UniqueKeys db) :
    UniqueKeys (upsertStep runId (db, n) d).1 := by
  cases hfind : db.find? (fun it =>
      it.tripId == d.tripId && it.fingerprint == d.fingerprint) with
  | some e =>
      simp only [upsertStep, hfind]
      apply uniqueKeys_map_of_keyPreserving
      · intro it
        by_cases hid : (it.id == e.id) = true <;> simp [hid, itemKey]
      · exact hu
  | none =>
      simp only [upsertStep, hfind]
      have hall := List.find?_eq_none.mp hfind
      unfold UniqueKeys
      rw [List.pairwise_append]
      refine ⟨hu, List.pairwise_singleton _ _, ?_⟩
      intro a ha b hb
      have hb' : b = _ := List.mem_singleton.mp hb
      subst hb'
      have hnk := hall a ha
      simp only [Bool.and_eq_true, beq_iff_eq, not_and] at hnk
      simp only [itemKey, ne_eq, Prod.mk.injEq, not_and]
      intro h1 h2
      exact hnk h1 h2

/-- Folding the upsert over drafts whose keys are all already present keeps
both the row count and the key list unchanged. -/
theorem upsert_foldl_inplace (runId : String) (drafts : List TripItemDraft) :
    ∀ (db : List TripItem) (n : Nat),
      (∀ d ∈ drafts, (d.tripId, d.fingerprint) ∈ db.map itemKey) →
      (drafts.foldl (upsertStep runId) (db, n)).1.length = db.length ∧
      (drafts.foldl (upsertStep runId) (db, n)).1.map itemKey = db.map itemKey := by
  induction drafts with
  | nil => intro db n _; exact ⟨rfl, rfl⟩
  | cons d rest ih =>
      intro db n hall
      have hd := hall d (List.mem_cons_self d rest)
      obtain ⟨e, hmem, hkey⟩ := List.mem_map.mp hd
      have hpred : (fun it =>
          it.tripId == d.tripId && it.fingerprint == d.fingerprint) e = true := by
        simp only [itemKey, Prod.mk.injEq] at hkey
        simp [hkey.1, hkey.2]
      have hfound : (db.find? (fun it =>
          it.tripId == d.tripId && it.fingerprint == d.fingerprint)).isSome = true := by
        rw [List.find?_isSome]
        exact ⟨e, hmem, hpred⟩
      obtain ⟨e', hfind⟩ := Option.isSome_iff_exists.mp hfound
      obtain ⟨hlen, hkeys, hcnt⟩ := upsertStep_found runId db n d e' hfind
      rw [List.foldl_cons]
      have hall' : ∀ d' ∈ rest,
          (d'.tripId, d'.fingerprint) ∈ (upsertStep runId (db, n) d).1.map itemKey := by
        intro d' hd'
        rw [hkeys]
        exact hall d' (List.mem_cons_of_mem d hd')
      have := ih (upsertStep runId (db, n) d).1 (upsertStep runId (db, n) d).2 hall'
      rw [Prod.mk.eta] at this
      exact ⟨this.1.trans hlen, this.2.trans hkeys⟩

/-- Folding the upsert over any draft list preserves the uniqueness
invariant. -/
theorem upsert_foldl_unique (runId : String) (drafts : List TripItemDraft) :
    ∀ (db : List TripItem) (n : Nat), UniqueKeys db →
      UniqueKeys (drafts.foldl (upsertStep runId) (db, n)).1 := by
  induction drafts with
  | nil => intro db n hu; exact hu
  | cons d rest ih =>
      intro db n hu
      rw [List.foldl_cons]
      have h1 := upsertStep_unique runId db n d hu
      have := ih (upsertStep runId (db, n) d).1 (upsertStep runId (db, n) d).2 h1
      rw [Prod.mk.eta] at this
      exact this

/-- C4. `(tripId, fingerprint)` uniquely identifies an item — the upsert
preserves the pairwise-distinct-keys invariant for any draft list — and
re-ingesting content whose items' fingerprints are all already present in
the trip updates rows in place: the trip's item count does not grow. -/
theorem upsert_idempotent_reingestion (db : List TripItem)
    (drafts : List TripItemDraft) (runId : String) :
    ((∀ d ∈ drafts, (d.tripId, d.fingerprint) ∈ db.map itemKey) →
      (upsertTripItems db drafts runId).length = db.length) ∧
    (UniqueKeys db → UniqueKeys (upsertTripItems db drafts runId)) := by
  constructor
  · intro hall
    exact (upsert_foldl_inplace runId drafts db 0 hall).1
  · intro hu
    exact upsert_foldl_unique runId drafts db 0 hu

/-- Witness for C4 at a concrete input: re-ingesting a draft carrying an
already-present `(tripId, fingerprint)` leaves the one-row database at one
row and keeps the invariant. -/
theorem upsert_idempotent_reingestion_witness :
    (upsertTripItems upsertDb [draftDup] "run2").length = upsertDb.length ∧
    UniqueKeys (upsertTripItems upsertDb [draftDup] "run2") := by
  constructor
  · exact (upsert_idempotent_reingestion upsertDb [draftDup] "run2").1 (by decide)
  · exact (upsert_idempotent_reingestion upsertDb [draftDup] "run2").2
      (List.pairwise_singleton _ _)

/-- C2. For every scored candidate set: if no filtered candidate reaches the
0.50 minimum there is no target (and no candidates); when the sorted scores
have a top-two gap of at most 0.10 the match is ambiguous — up to 5 ranked
candidates are returned and no target is chosen; when the gap exceeds 0.10
the top-scoring entry (a maximum of all surviving scores) is the unique
auto-resolved target. -/
theorem candidate_resolution_disambiguation (items : List TripItem)
    (hints : PatchTargetHints) (rawUpdateText : String) :
    ((∀ it ∈ filterCandidates items hints rawUpdateText,
        (scoreCandidate it hints).1 < CANDIDATE_MIN_SCORE) →
      resolveCandidates items (some hints) rawUpdateText = ([], none)) ∧
    (∀ top rest, sortedScored items hints rawUpdateText = top :: rest →
      ∀ e ∈ scoredEntries items hints rawUpdateText, e.score ≤ top.score) ∧
    (∀ top second rest,
      sortedScored items hints rawUpdateText = top :: second :: rest →
      (top.score - second.score ≤ AMBIGUOUS_SCORE_GAP →
        (resolveCandidates items (some hints) rawUpdateText).2 = none ∧
        (resolveCandidates items (some hints) rawUpdateText).1 =
          ((top :: second :: rest).take 5).map toPendingCandidate ∧
        (resolveCandidates items (some hints) rawUpdateText).1.length ≤ 5) ∧
      (AMBIGUOUS_SCORE_GAP < top.score - second.score →
        (resolveCandidates items (some hints) rawUpdateText).2 = some top.item.id)) := by
  have hsortnil : scoredEntries items hints rawUpdateText = [] →
      sortedScored items hints rawUpdateText = [] := by
    intro h
    unfold sortedScored
    rw [h]
    rfl
  have hfilternil : (filterCandidates items hints rawUpdateText).isEmpty = true →
      scoredEntries items hints rawUpdateText = [] := by
    intro h
    unfold scoredEntries
    rw [List.isEmpty_iff.mp h]
    rfl
  refine ⟨?_, ?_, ?_⟩
  · intro hbelow
    have hsc : scoredEntries items hints rawUpdateText = [] := by
      unfold scoredEntries
      rw [List.filter_eq_nil_iff]
      intro e he
      obtain ⟨it, hit, heq⟩ := List.mem_map.mp he
      subst heq
      simp only [decide_eq_true_eq, not_le]
      exact hbelow it hit
    by_cases hfe : (filterCandidates items hints rawUpdateText).isEmpty = true
    · simp [resolveCandidates, hfe]
    · have hfe' : (filterCandidates items hints rawUpdateText).isEmpty = false := by
        revert hfe
        cases (filterCandidates items hints rawUpdateText).isEmpty <;> simp
      simp [resolveCandidates, hfe', hsortnil hsc]
  · intro top rest hsort e he
    have hperm := List.perm_insertionSort scoreGe (scoredEntries items hints rawUpdateText)
    have hsorted := List.sorted_insertionSort scoreGe (scoredEntries items hints rawUpdateText)
    rw [show List.insertionSort scoreGe (scoredEntries items hints rawUpdateText) =
        sortedScored items hints rawUpdateText from rfl, hsort] at hperm hsorted
    have hmem : e ∈ top :: rest := hperm.symm.subset he
    rcases List.mem_cons.mp hmem with h | h
    · rw [h]
    · exact (List.sorted_cons.mp hsorted).1 e h
  · intro top second rest hsort
    have hne : (filterCandidates items hints rawUpdateText).isEmpty = false := by
      by_cases hfe : (filterCandidates items hints rawUpdateText).isEmpty = true
      · rw [hsortnil (hfilternil hfe)] at hsort
        exact absurd hsort (by simp)
      · revert hfe
        cases (filterCandidates items hints rawUpdateText).isEmpty <;> simp
    constructor
    · intro hgap
      have hamb : decide (top.score - second.score ≤ AMBIGUOUS_SCORE_GAP) = true :=
        decide_eq_true hgap
      refine ⟨?_, ?_, ?_⟩
      · simp [resolveCandidates, hne, hsort, hamb]
        linarith
      · simp [resolveCandidates, hne, hsort, hamb]
        try linarith
      · simp only [resolveCandidates, hne, hsort, hamb]
        simp [List.length_take]
        try linarith
    · intro hgap
      have hamb : decide (top.score - second.score ≤ AMBIGUOUS_SCORE_GAP) = false := by
        rw [decide_eq_false_iff_not]
        exact not_le.mpr hgap
      simp [resolveCandidates, hne, hsort, hamb]
      linarith

/-- Witness for C2 at concrete inputs: scores 0.70 and 0.65 (gap 0.05 ≤
0.10) resolve to no target, while scores 0.70 and 0.55 (gap 0.15 > 0.10)
auto-resolve to the top-scoring item. -/
theorem candidate_resolution_disambiguation_witness :
    (resolveCandidates itemsAmb (some hintsMeal) "move dinner").2 = none ∧
    (resolveCandidates itemsClear (some hintsMeal) "move dinner").2 = some "i1" := by
  constructor
  · exact (((candidate_resolution_disambiguation itemsAmb hintsMeal "move dinner").2.2
      ⟨tItem "i1" "MEAL" "Dinner" (some "2026-03-12") (some "19:00") none "PROPOSED",
        70, ["Matches kind", "Matches date", "Matches time"]⟩
      ⟨tItem "i2" "MEAL" "Sushi place" (some "2026-03-12") none none "PROPOSED",
        65, ["Matches kind", "Matches date", "Title matches keywords"]⟩
      [] (by decide)).1 (by decide)).1
  · exact ((candidate_resolution_disambiguation itemsClear hintsMeal "move dinner").2.2
      ⟨tItem "i1" "MEAL" "Dinner" (some "2026-03-12") (some "19:00") none "PROPOSED",
        70, ["Matches kind", "Matches date", "Matches time"]⟩
      ⟨tItem "i2" "MEAL" "Steak" (some "2026-03-12") none none "PROPOSED",
        55, ["Matches kind", "Matches date"]⟩
      [] (by decide)).2 (by decide)
